import Mathlib

/-!
# `connect(2)` of the MINIX C library (`lib/libc/ip/connect.c`)

A shallow embedding of `connect`, `_tcp_connect`, `_udp_connect`, `in_group`
and `_uds_connect`.  The C functions talk to the operating system through
`ioctl`, `fcntl`, `realpath`, `stat`, `geteuid`, `getegid`, `sysconf`,
`malloc` and `getgroups`.  Here every one of those calls is answered by an
environment `Env` (an arbitrary oracle), and every call the code issues is
appended, with its arguments, to a trace kept in the state next to `errno`.

* C `int` values are `Int`; the test `r == -1` is `r = -1`.
* Header constants that are not part of the sources are the fields of `Consts`.
* An array is a list, and `sizeof` of the array is the length of that list.
* A pointer argument is an `Option`: `none` is `NULL`.
-/

set_option linter.unusedVariables false
set_option maxRecDepth 10000

namespace Connect

/-! ## Constants of the headers -/

/-- Values of the header constants used by `connect.c`.  The headers are not
among the sources, so the values are parameters of the embedding. -/
structure Consts where
  ENOTTY : Int
  EBADIOCTL : Int
  EINVAL : Int
  EISCONN : Int
  EFAULT : Int
  EAFNOSUPPORT : Int
  ENAMETOOLONG : Int
  EACCES : Int
  ENOSYS : Int
  AF_INET : Nat
  AF_UNIX : Nat
  /-- The value of `sizeof(struct sockaddr_in)`. -/
  sizeof_sockaddr_in : Nat
  /-- The value of `sizeof(gid_t)`. -/
  sizeof_gid_t : Int
  UNIX_PATH_MAX : Nat
  O_NONBLOCK : Int
  NWTC_SET_RA : Nat
  NWTC_SET_RP : Nat
  NWTC_LOCPORT_MASK : Nat
  NWTC_LP_UNSET : Nat
  NWTC_LP_SEL : Nat
  TCF_DEFAULT : Nat
  TCF_ASYNCH : Nat
  NWUO_RP_ANY : Nat
  NWUO_RA_ANY : Nat
  NWUO_RWDATALL : Nat
  NWUO_RP_SET : Nat
  NWUO_RA_SET : Nat
  NWUO_RWDATONLY : Nat
  NWUO_LOCPORT_MASK : Nat
  NWUO_LP_ANY : Nat
  NWUO_LP_SEL : Nat
  /-- The macro `S_ISSOCK` of `<sys/stat.h>`, applied to an `st_mode`. -/
  S_ISSOCK : Nat → Bool

/-- Modelled from the spec: the read permission bit `R_BIT` of
`<minix/const.h>`, a header that is not among the sources.  The value is the
read bit of an `rwx` triple, the layout the shifts 6, 3 and 0 of
`_uds_connect` select from. -/
def R_BIT : Nat := 4

/-- Modelled from the spec: the write permission bit `W_BIT` of
`<minix/const.h>`, a header that is not among the sources. -/
def W_BIT : Nat := 2

/-- Modelled from the spec: the execute permission bit `X_BIT` of
`<minix/const.h>`, a header that is not among the sources. -/
def X_BIT : Nat := 1

/-! ## Data -/

/-- What a library or system call hands back: its return value and, when the
call stored to `errno`, the value it stored. -/
structure SysRet where
  ret : Int
  errno : Option Int
  deriving DecidableEq, Repr

/-- The fields of `nwio_tcpconf_t` that `connect.c` reads or assigns
(`nwtc_locport` is never touched by it). -/
structure TcpConf where
  nwtc_flags : Nat
  nwtc_remaddr : Nat
  nwtc_remport : Nat
  deriving DecidableEq, Repr

/-- The request structure `nwio_tcpcl_t`. -/
structure TcpCl where
  nwtcl_flags : Nat
  deriving DecidableEq, Repr

/-- The fields of `nwio_udpopt_t` that `connect.c` reads or assigns.  A field
the code leaves unassigned in a request is `none`. -/
structure UdpOpt where
  nwuo_flags : Nat
  nwuo_remaddr : Option Nat
  nwuo_remport : Option Nat
  deriving DecidableEq, Repr

/-- The object behind the `address` pointer, seen through both casts the code
applies: the family (`sin_family` and `sun_family` are the same leading field),
the fields of `struct sockaddr_in`, and the array `sun_path` of
`struct sockaddr_un` (a list of `sizeof(sun_path)` characters). -/
structure Sockaddr where
  sa_family : Nat
  sin_port : Nat
  sin_addr : Nat
  sun_path : List Nat
  deriving DecidableEq, Repr

/-- The fields of `struct stat` read by `_uds_connect`. -/
structure Stat where
  st_mode : Nat
  st_uid : Int
  st_gid : Int
  deriving DecidableEq, Repr

/-- What `realpath` hands back: the resolved name written to the buffer
(`none` when it returns `NULL`) and the value it stored to `errno`, if any. -/
structure RealpathRet where
  resolved : Option (List Nat)
  errno : Option Int
  deriving DecidableEq, Repr

/-- A call issued by the code, with its arguments. -/
inductive Call where
  | ioctl_NWIOGTCPCONF (fd : Int)
  | ioctl_NWIOGUDPOPT (fd : Int)
  | ioctl_NWIOSTCPCONF (fd : Int) (conf : TcpConf)
  | fcntl_F_GETFL (fd : Int)
  | ioctl_NWIOTCPCONN (fd : Int) (cl : TcpCl)
  | ioctl_NWIOSUDPOPT (fd : Int) (opt : UdpOpt)
  | realpath (path : List Nat)
  | geteuid
  | getegid
  | stat (path : List Nat)
  | sysconf_NGROUPS_MAX
  | malloc (size : Int)
  | getgroups (size : Int)
  | free
  | ioctl_NWIOSUDSCONN (fd : Int) (address : Sockaddr)
  deriving DecidableEq, Repr

/-- The environment: the answer of the system to each call, as a function of
the arguments of the call. -/
structure Env where
  ioctl_NWIOGTCPCONF : Int → SysRet × TcpConf
  ioctl_NWIOGUDPOPT : Int → SysRet × UdpOpt
  ioctl_NWIOSTCPCONF : Int → TcpConf → SysRet
  fcntl_F_GETFL : Int → SysRet
  ioctl_NWIOTCPCONN : Int → TcpCl → SysRet
  ioctl_NWIOSUDPOPT : Int → UdpOpt → SysRet
  realpath : List Nat → RealpathRet
  geteuid : Int
  getegid : Int
  stat : List Nat → SysRet × Stat
  sysconf_NGROUPS_MAX : Int
  /-- Whether `malloc` returns a non-`NULL` pointer, and the `errno` it stores. -/
  malloc : Int → Bool × Option Int
  /-- The return value of `getgroups` and the contents of the buffer after it. -/
  getgroups : Int → SysRet × (Nat → Int)
  ioctl_NWIOSUDSCONN : Int → Sockaddr → SysRet

/-- The part of the process state the code changes: `errno` and the trace of
the calls issued so far. -/
structure State where
  errno : Int
  trace : List Call
  deriving DecidableEq, Repr

/-- Record a call that does not touch `errno`. -/
def State.log (s : State) (call : Call) : State :=
  { s with trace := s.trace ++ [call] }

/-- Record a call and the value it may have stored to `errno`. -/
def State.sys (s : State) (call : Call) (e : Option Int) : State :=
  { errno := e.getD s.errno, trace := s.trace ++ [call] }

/-- The assignment `errno = e`. -/
def State.setErrno (s : State) (e : Int) : State :=
  { s with errno := e }

/-- How a function ends: it returns `r`, leaving state `s` and the caller's
address object `address`; or it dereferences a `NULL` pointer. -/
inductive Outcome where
  | ret (r : Int) (s : State) (address : Option Sockaddr)
  | fault (s : State)
  deriving DecidableEq, Repr

/-- The trace at the end of a run. -/
def Outcome.trace : Outcome → List Call
  | .ret _ s _ => s.trace
  | .fault s => s.trace

/-! ## `_tcp_connect` -/

/-- The configuration request built at lines 99-103. -/
def tcpconf_request (c : Consts) (tcpconfp : TcpConf) (sinp : Sockaddr) : TcpConf :=
  { nwtc_flags :=
      if tcpconfp.nwtc_flags &&& c.NWTC_LOCPORT_MASK = c.NWTC_LP_UNSET then
        (c.NWTC_SET_RA ||| c.NWTC_SET_RP) ||| c.NWTC_LP_SEL
      else
        c.NWTC_SET_RA ||| c.NWTC_SET_RP
    nwtc_remaddr := sinp.sin_addr
    nwtc_remport := sinp.sin_port }

/-- The bit pattern of the C expression `a & b` on two `int` operands (32 bits,
two's complement); it is zero exactly when `a & b` is. -/
def int_and (a b : Int) : Nat :=
  (a % 2 ^ 32).toNat &&& (b % 2 ^ 32).toNat

/-- The connection request built at lines 114-120 from the value `r` returned
by `fcntl(socket, F_GETFL)`. -/
def tcpcl_request (c : Consts) (r : Int) : TcpCl :=
  { nwtcl_flags :=
      if int_and r c.O_NONBLOCK ≠ 0 then c.TCF_DEFAULT ||| c.TCF_ASYNCH
      else c.TCF_DEFAULT }

/-- The function `_tcp_connect`, lines 80-124. -/
def _tcp_connect (c : Consts) (env : Env) (s : State) (socket : Int)
    (address : Option Sockaddr) (address_len : Nat) (tcpconfp : TcpConf) : Outcome :=
  if address_len ≠ c.sizeof_sockaddr_in then
    .ret (-1) (s.setErrno c.EINVAL) address
  else
    match address with
    | none => .fault s
    | some sinp =>
      if sinp.sa_family ≠ c.AF_INET then
        .ret (-1) (s.setErrno c.EINVAL) address
      else
        let tcpconf := tcpconf_request c tcpconfp sinp
        let r1 := env.ioctl_NWIOSTCPCONF socket tcpconf
        let s1 := s.sys (.ioctl_NWIOSTCPCONF socket tcpconf) r1.errno
        if r1.ret = -1 ∧ s1.errno ≠ c.EISCONN then
          .ret (-1) s1 address
        else
          let r2 := env.fcntl_F_GETFL socket
          let s2 := s1.sys (.fcntl_F_GETFL socket) r2.errno
          if r2.ret = 1 then
            .ret (-1) s2 address
          else
            let tcpcl := tcpcl_request c r2.ret
            let r3 := env.ioctl_NWIOTCPCONN socket tcpcl
            .ret r3.ret (s2.sys (.ioctl_NWIOTCPCONN socket tcpcl) r3.errno) address

/-! ## `_udp_connect` -/

/-- The request built at line 136, for a `NULL` address. -/
def udpopt_unset (c : Consts) : UdpOpt :=
  { nwuo_flags := (c.NWUO_RP_ANY ||| c.NWUO_RA_ANY) ||| c.NWUO_RWDATALL
    nwuo_remaddr := none
    nwuo_remport := none }

/-- The request built at lines 153-157. -/
def udpopt_request (c : Consts) (udpoptp : UdpOpt) (sinp : Sockaddr) : UdpOpt :=
  { nwuo_flags :=
      if udpoptp.nwuo_flags &&& c.NWUO_LOCPORT_MASK = c.NWUO_LP_ANY then
        ((c.NWUO_RP_SET ||| c.NWUO_RA_SET) ||| c.NWUO_RWDATONLY) ||| c.NWUO_LP_SEL
      else
        (c.NWUO_RP_SET ||| c.NWUO_RA_SET) ||| c.NWUO_RWDATONLY
    nwuo_remaddr := some sinp.sin_addr
    nwuo_remport := some sinp.sin_port }

/-- The function `_udp_connect`, lines 126-161. -/
def _udp_connect (c : Consts) (env : Env) (s : State) (socket : Int)
    (address : Option Sockaddr) (address_len : Nat) (udpoptp : UdpOpt) : Outcome :=
  match address with
  | none =>
    let udpopt := udpopt_unset c
    let r := env.ioctl_NWIOSUDPOPT socket udpopt
    .ret r.ret (s.sys (.ioctl_NWIOSUDPOPT socket udpopt) r.errno) address
  | some sinp =>
    if address_len ≠ c.sizeof_sockaddr_in then
      .ret (-1) (s.setErrno c.EINVAL) address
    else if sinp.sa_family ≠ c.AF_INET then
      .ret (-1) (s.setErrno c.EINVAL) address
    else
      let udpopt := udpopt_request c udpoptp sinp
      let r := env.ioctl_NWIOSUDPOPT socket udpopt
      .ret r.ret (s.sys (.ioctl_NWIOSUDPOPT socket udpopt) r.errno) address

/-! ## `in_group` -/

/-- The loop of lines 182-187: `n` iterations are left and `i` is the index;
the result is the value `in_group` returns. -/
def in_group_loop (gid : Int) (list : Nat → Int) : Nat → Nat → Int
  | 0, _ => 0
  | n + 1, i => if gid = list i then 1 else in_group_loop gid list n (i + 1)

/-- The function `in_group`, lines 163-191. -/
def in_group (c : Consts) (env : Env) (s : State) (uid : Int) (gid : Int) : Int × State :=
  let size := env.sysconf_NGROUPS_MAX
  let s1 := s.log .sysconf_NGROUPS_MAX
  let m := env.malloc (size * c.sizeof_gid_t)
  let s2 := s1.sys (.malloc (size * c.sizeof_gid_t)) m.2
  if m.1 = false then
    (0, s2)
  else
    let g := env.getgroups size
    let s3 := s2.sys (.getgroups size) g.1.errno
    if g.1.ret = -1 then
      (0, s3.log .free)
    else
      (in_group_loop gid g.2 g.1.ret.toNat 0, s3.log .free)

/-! ## `_uds_connect` -/

/-- The loop of lines 223-230 over the array `sun_path`: the value of
`null_found` after it. -/
def null_found : List Nat → Bool
  | [] => false
  | b :: bs => if b = 0 then true else null_found bs

/-- The C string held in a character array: the characters before the first
null. -/
def cstr (buf : List Nat) : List Nat :=
  buf.takeWhile (fun b => b ≠ 0)

/-- The library function `strlen`. -/
def strlen (buf : List Nat) : Nat :=
  (cstr buf).length

/-- The library function `strcpy`: the array `dst` after the string of `src`
and its terminating null have been written at its start. -/
def strcpy (dst src : List Nat) : List Nat :=
  cstr src ++ 0 :: dst.drop (strlen src + 1)

/-- The choice of `shift` at lines 285-293, with the state left by `in_group`
when that is called. -/
def select_shift (c : Consts) (env : Env) (s : State) (euid egid : Int) (buf : Stat) :
    Nat × State :=
  if euid = buf.st_uid then
    (6, s)
  else if egid = buf.st_gid then
    (3, s)
  else if (in_group c env s euid buf.st_gid).1 ≠ 0 then
    (3, (in_group c env s euid buf.st_gid).2)
  else
    (0, (in_group c env s euid buf.st_gid).2)

/-- The value of `perm_bits` after lines 280-296, with the state at that point. -/
def select_perm_bits (c : Consts) (env : Env) (s : State) (euid egid : Int) (buf : Stat) :
    Nat × State :=
  if euid = 0 then
    (R_BIT ||| W_BIT, s)
  else
    ((buf.st_mode >>> (select_shift c env s euid egid buf).1) &&& (R_BIT ||| W_BIT ||| X_BIT),
      (select_shift c env s euid egid buf).2)

/-- The function `_uds_connect`, lines 193-306. -/
def _uds_connect (c : Consts) (env : Env) (s : State) (socket : Int)
    (address : Option Sockaddr) (address_len : Nat) : Outcome :=
  match address with
  | none => .ret (-1) (s.setErrno c.EFAULT) address
  | some a =>
    if a.sa_family ≠ c.AF_UNIX then
      .ret (-1) (s.setErrno c.EAFNOSUPPORT) address
    else if a.sun_path.head? = some 0 then
      .ret (-1) (s.setErrno c.EINVAL) address
    else if null_found a.sun_path = false then
      .ret (-1) (s.setErrno c.EINVAL) address
    else
      let rp := env.realpath (cstr a.sun_path)
      let s1 := s.sys (.realpath (cstr a.sun_path)) rp.errno
      match rp.resolved with
      | none => .ret (-1) s1 address
      | some real_sun_path =>
        if strlen real_sun_path ≥ c.UNIX_PATH_MAX then
          .ret (-1) (s1.setErrno c.ENAMETOOLONG) address
        else
          let a1 : Sockaddr := { a with sun_path := strcpy a.sun_path real_sun_path }
          let access_desired := R_BIT ||| W_BIT
          let euid := env.geteuid
          let egid := env.getegid
          let s2 := (s1.log .geteuid).log .getegid
          if euid = -1 ∨ egid = -1 then
            .ret (-1) (s2.setErrno c.EACCES) (some a1)
          else
            let st := env.stat (cstr a1.sun_path)
            let s3 := s2.sys (.stat (cstr a1.sun_path)) st.1.errno
            if st.1.ret = -1 then
              .ret (-1) s3 (some a1)
            else if c.S_ISSOCK st.2.st_mode = false then
              .ret (-1) (s3.setErrno c.EINVAL) (some a1)
            else
              let p := select_perm_bits c env s3 euid egid st.2
              if (p.1 ||| access_desired) ≠ p.1 then
                .ret (-1) (p.2.setErrno c.EACCES) (some a1)
              else
                let r := env.ioctl_NWIOSUDSCONN socket a1
                .ret r.ret (p.2.sys (.ioctl_NWIOSUDSCONN socket a1) r.errno) (some a1)

/-! ## `connect` -/

/-- The function `connect`, lines 30-78. -/
def connect (c : Consts) (env : Env) (s : State) (socket : Int)
    (address : Option Sockaddr) (address_len : Nat) : Outcome :=
  let t := env.ioctl_NWIOGTCPCONF socket
  let s1 := s.sys (.ioctl_NWIOGTCPCONF socket) t.1.errno
  if t.1.ret ≠ -1 ∨ (s1.errno ≠ c.ENOTTY ∧ s1.errno ≠ c.EBADIOCTL) then
    if t.1.ret = -1 then
      .ret (-1) s1 address
    else
      _tcp_connect c env s1 socket address address_len t.2
  else
    let u := env.ioctl_NWIOGUDPOPT socket
    let s2 := s1.sys (.ioctl_NWIOGUDPOPT socket) u.1.errno
    if u.1.ret ≠ -1 ∨ (s2.errno ≠ c.ENOTTY ∧ s2.errno ≠ c.EBADIOCTL) then
      if u.1.ret = -1 then
        .ret (-1) s2 address
      else
        _udp_connect c env s2 socket address address_len u.2
    else
      match _uds_connect c env s2 socket address address_len with
      | .fault s3 => .fault s3
      | .ret r s3 address3 =>
        if r ≠ -1 ∨
            (s3.errno ≠ c.ENOTTY ∧ s3.errno ≠ c.EBADIOCTL ∧ s3.errno ≠ c.EAFNOSUPPORT) then
          if r = -1 then
            .ret (-1) s3 address3
          else
            .ret r s3 address3
        else
          .ret (-1) (s3.setErrno c.ENOSYS) address3

/-! ## The permission rule in the words of the specification -/

/-- The supplementary group list the access check works with: the first `r`
entries of the buffer filled by `getgroups`, where `r` is the count it
returned; the list is empty when the buffer cannot be allocated or the query
fails. -/
def supplementary_groups (c : Consts) (env : Env) : List Int :=
  if (env.malloc (env.sysconf_NGROUPS_MAX * c.sizeof_gid_t)).1 = false then []
  else if (env.getgroups env.sysconf_NGROUPS_MAX).1.ret = -1 then []
  else
    (List.range (env.getgroups env.sysconf_NGROUPS_MAX).1.ret.toNat).map
      (env.getgroups env.sysconf_NGROUPS_MAX).2

/-- The owner's `rwx` triple of a file mode. -/
def owner_bits (mode : Nat) : Nat := mode / 64 % 8

/-- The group's `rwx` triple of a file mode. -/
def group_bits (mode : Nat) : Nat := mode / 8 % 8

/-- The `rwx` triple of a file mode for everybody else. -/
def other_bits (mode : Nat) : Nat := mode % 8

/-- An `rwx` triple grants read. -/
def has_read (triple : Nat) : Bool := triple / 4 % 2 == 1

/-- An `rwx` triple grants write. -/
def has_write (triple : Nat) : Bool := triple / 2 % 2 == 1

/-- The bucket rule for a caller that is not the superuser: the owner's bits
when the effective uid is the owner of the file, else the group's bits when the
effective gid is the group of the file or that group is in the supplementary
group list, else the bits of the others. -/
def selected_bits (euid egid : Int) (buf : Stat) (groups : List Int) : Nat :=
  if euid = buf.st_uid then owner_bits buf.st_mode
  else if egid = buf.st_gid ∨ buf.st_gid ∈ groups then group_bits buf.st_mode
  else other_bits buf.st_mode

/-- The permission check passes: the caller is the superuser, or the selected
bits grant both read and write. -/
def check_passes (euid egid : Int) (buf : Stat) (groups : List Int) : Bool :=
  euid == 0 ||
    (has_read (selected_bits euid egid buf groups) &&
      has_write (selected_bits euid egid buf groups))

/-- A call is the local connection request `NWIOSUDSCONN`. -/
def Call.isUdsConn : Call → Bool
  | .ioctl_NWIOSUDSCONN _ _ => true
  | _ => false

/-- A call issued by `in_group`. -/
def Call.isGroupCall : Call → Bool
  | .sysconf_NGROUPS_MAX => true
  | .malloc _ => true
  | .getgroups _ => true
  | .free => true
  | _ => false

/-- A call belongs to the stream path: the stream probe or a call of
`_tcp_connect`. -/
def Call.isStreamCall : Call → Bool
  | .ioctl_NWIOGTCPCONF _ => true
  | .ioctl_NWIOSTCPCONF _ _ => true
  | .fcntl_F_GETFL _ => true
  | .ioctl_NWIOTCPCONN _ _ => true
  | _ => false

/-- An `errno` value of the "not applicable" class tested by `connect`. -/
abbrev not_applicable (c : Consts) (e : Int) : Prop :=
  e = c.ENOTTY ∨ e = c.EBADIOCTL

/-- The state right after the stream probe of `connect`. -/
def after_stream_probe (env : Env) (s : State) (socket : Int) : State :=
  s.sys (.ioctl_NWIOGTCPCONF socket) (env.ioctl_NWIOGTCPCONF socket).1.errno

/-- The state right after the datagram probe of `connect`. -/
def after_datagram_probe (env : Env) (s : State) (socket : Int) : State :=
  (after_stream_probe env s socket).sys (.ioctl_NWIOGUDPOPT socket)
    (env.ioctl_NWIOGUDPOPT socket).1.errno

/-- The handle is classified as a stream: the stream probe succeeds. -/
abbrev is_stream (env : Env) (socket : Int) : Prop :=
  (env.ioctl_NWIOGTCPCONF socket).1.ret ≠ -1

/-- The stream probe fails with an error of the "not applicable" class. -/
abbrev stream_not_applicable (c : Consts) (env : Env) (s : State) (socket : Int) : Prop :=
  (env.ioctl_NWIOGTCPCONF socket).1.ret = -1 ∧
    not_applicable c (after_stream_probe env s socket).errno

/-- The datagram probe fails with an error of the "not applicable" class. -/
abbrev datagram_not_applicable (c : Consts) (env : Env) (s : State) (socket : Int) : Prop :=
  (env.ioctl_NWIOGUDPOPT socket).1.ret = -1 ∧
    not_applicable c (after_datagram_probe env s socket).errno

/-- The handle is classified as a datagram endpoint: the stream probe is not
applicable and the datagram probe succeeds. -/
abbrev is_datagram (c : Consts) (env : Env) (s : State) (socket : Int) : Prop :=
  stream_not_applicable c env s socket ∧ (env.ioctl_NWIOGUDPOPT socket).1.ret ≠ -1

/-! ## Concrete inputs -/

/-- The character codes of a string. -/
def bytes (str : String) : List Nat :=
  str.toList.map Char.toNat

/-- A concrete assignment of the header constants: pairwise distinct error
numbers and flag values, used to run the code on concrete inputs. -/
def consts0 : Consts :=
  { ENOTTY := 25
    EBADIOCTL := 52
    EINVAL := 22
    EISCONN := 57
    EFAULT := 14
    EAFNOSUPPORT := 67
    ENAMETOOLONG := 36
    EACCES := 13
    ENOSYS := 38
    AF_INET := 2
    AF_UNIX := 1
    sizeof_sockaddr_in := 16
    sizeof_gid_t := 1
    UNIX_PATH_MAX := 127
    O_NONBLOCK := 2048
    NWTC_SET_RA := 0x100
    NWTC_SET_RP := 0x200
    NWTC_LOCPORT_MASK := 0x30
    NWTC_LP_UNSET := 0x10
    NWTC_LP_SEL := 0x30
    TCF_DEFAULT := 0
    TCF_ASYNCH := 1
    NWUO_RP_ANY := 0x1000000
    NWUO_RA_ANY := 0x2000000
    NWUO_RWDATALL := 0x10000000
    NWUO_RP_SET := 0x100
    NWUO_RA_SET := 0x200
    NWUO_RWDATONLY := 0x1000
    NWUO_LOCPORT_MASK := 0xC
    NWUO_LP_ANY := 0xC
    NWUO_LP_SEL := 0x4
    S_ISSOCK := fun m => m &&& 0o170000 == 0o140000 }

/-- The error number `EBADF` in the concrete runs. -/
def EBADF0 : Int := 9

/-- The error number `ENOENT` in the concrete runs. -/
def ENOENT0 : Int := 2

/-- A concrete system.  Descriptors 3, 7, 8, 9 and 10 are stream endpoints, 4
is a datagram endpoint, 5 is a local endpoint, 6 is not an open descriptor.
On 7 the query `fcntl(F_GETFL)` fails; 8 was opened write-only, so the query
returns the flag value 1; 9 and 10 are already connected, the query fails on 9
as on 7 and returns 1 on 10 as on 8.
The caller has effective uid 1000, effective gid 100 and the supplementary
groups 20 and 30.  The file system holds four socket files and resolves
`/tmp/s.sock` to `/var/run/s.sock` and `/tmp/long` to a name of 127
characters. -/
def env0 : Env :=
  { ioctl_NWIOGTCPCONF := fun fd =>
      if fd = 3 ∨ fd = 7 ∨ fd = 8 ∨ fd = 9 ∨ fd = 10 then (⟨0, none⟩, ⟨0x10, 0, 0⟩)
      else if fd = 6 then (⟨-1, some EBADF0⟩, ⟨0, 0, 0⟩)
      else (⟨-1, some 25⟩, ⟨0, 0, 0⟩)
    ioctl_NWIOGUDPOPT := fun fd =>
      if fd = 4 then (⟨0, none⟩, ⟨0xC, none, none⟩)
      else (⟨-1, some 25⟩, ⟨0, none, none⟩)
    ioctl_NWIOSTCPCONF := fun fd _ =>
      if fd = 3 ∨ fd = 7 ∨ fd = 8 then ⟨0, none⟩
      else if fd = 9 ∨ fd = 10 then ⟨-1, some 57⟩
      else ⟨-1, some 25⟩
    fcntl_F_GETFL := fun fd =>
      if fd = 7 ∨ fd = 9 then ⟨-1, some EBADF0⟩
      else if fd = 8 ∨ fd = 10 then ⟨1, none⟩
      else ⟨2, none⟩
    ioctl_NWIOTCPCONN := fun fd _ =>
      if fd = 3 ∨ fd = 7 ∨ fd = 8 ∨ fd = 9 ∨ fd = 10 then ⟨0, none⟩ else ⟨-1, some 25⟩
    ioctl_NWIOSUDPOPT := fun fd _ =>
      if fd = 4 then ⟨0, none⟩ else ⟨-1, some 25⟩
    realpath := fun path =>
      if path = bytes "/tmp/s.sock" then ⟨some (bytes "/var/run/s.sock"), none⟩
      else if path = bytes "/tmp/long" then ⟨some (List.replicate 127 97), none⟩
      else ⟨some path, none⟩
    geteuid := 1000
    getegid := 100
    stat := fun path =>
      if path = bytes "/var/run/s.sock" then (⟨0, none⟩, ⟨0o140666, 0, 0⟩)
      else if path = bytes "/tmp/g.sock" then (⟨0, none⟩, ⟨0o140060, 0, 30⟩)
      else if path = bytes "/tmp/p.sock" then (⟨0, none⟩, ⟨0o140660, 0, 0⟩)
      else if path = bytes "/tmp/o.sock" then (⟨0, none⟩, ⟨0o140600, 1000, 100⟩)
      else (⟨-1, some ENOENT0⟩, ⟨0, 0, 0⟩)
    sysconf_NGROUPS_MAX := 8
    malloc := fun _ => (true, none)
    getgroups := fun _ => (⟨2, none⟩, fun i => if i = 0 then 20 else if i = 1 then 30 else 0)
    ioctl_NWIOSUDSCONN := fun fd _ =>
      if fd = 5 then ⟨0, none⟩ else ⟨-1, some 25⟩ }

/-- The state before a concrete run: `errno` is 0 and no call has been issued. -/
def state0 : State :=
  { errno := 0, trace := [] }

/-- A local address: family `AF_UNIX` and the array `sun_path` holding `path`
followed by nulls up to its 127 characters. -/
def local_address (path : String) : Sockaddr :=
  { sa_family := 1
    sin_port := 0
    sin_addr := 0
    sun_path := bytes path ++ List.replicate (127 - (bytes path).length) 0 }

/-- The Internet address 10.0.0.1, port 80. -/
def inet_address : Sockaddr :=
  { sa_family := 2
    sin_port := 80
    sin_addr := 0x0A000001
    sun_path := [] }

/-- The `NWIOSUDPOPT` requests of a trace, in the order they were issued. -/
def udp_requests : List Call → List UdpOpt
  | [] => []
  | .ioctl_NWIOSUDPOPT _ opt :: t => opt :: udp_requests t
  | _ :: t => udp_requests t

/-- The configuration a layer holds after a list of requests has been applied
to it one after the other; `apply` is the layer's reaction to one request. -/
def apply_requests {Config : Type} (apply : Config → UdpOpt → Config) (cfg : Config)
    (reqs : List UdpOpt) : Config :=
  reqs.foldl apply cfg

/-- The concrete system `env0` for a caller whose effective uid cannot be
obtained: `geteuid` returns `-1`. -/
def env_no_euid : Env :=
  { env0 with geteuid := -1 }

/-- The concrete system `env0` with one more file: `/etc/passwd`, a regular
file of mode `rw-r--r--`. -/
def env_regular_file : Env :=
  { env0 with
    stat := fun path =>
      if path = bytes "/etc/passwd" then (⟨0, none⟩, ⟨0o100644, 0, 0⟩) else env0.stat path }

/-! # Theorems -/

/-! ## Helper lemmas -/

theorem in_group_loop_ne_zero (gid : Int) (list : Nat → Int) (n i : Nat) :
    in_group_loop gid list n i ≠ 0 ↔ ∃ j, i ≤ j ∧ j < i + n ∧ gid = list j := by
  induction n generalizing i with
  | zero => simp [in_group_loop]; intro j h1 h2; omega
  | succ n ih =>
    unfold in_group_loop
    by_cases h : gid = list i
    · simp only [h, if_true]
      constructor
      · intro _; exact ⟨i, le_refl _, by omega, rfl⟩
      · intro _; decide
    · simp only [h, if_false, ih]
      constructor
      · rintro ⟨j, h1, h2, h3⟩; exact ⟨j, by omega, by omega, h3⟩
      · rintro ⟨j, h1, h2, h3⟩
        have : j ≠ i := fun e => h (e ▸ h3)
        exact ⟨j, by omega, by omega, h3⟩

theorem in_group_ne_zero (c : Consts) (env : Env) (s : State) (uid gid : Int) :
    (in_group c env s uid gid).1 ≠ 0 ↔ gid ∈ supplementary_groups c env := by
  unfold in_group supplementary_groups
  by_cases hm : (env.malloc (env.sysconf_NGROUPS_MAX * c.sizeof_gid_t)).1 = false
  · simp [hm]
  · by_cases hg : (env.getgroups env.sysconf_NGROUPS_MAX).1.ret = -1
    · simp [hm, hg]
    · have hm1 : (env.malloc (env.sysconf_NGROUPS_MAX * c.sizeof_gid_t)).1 = true := by
        simpa using hm
      rw [if_neg (by simp [hm1]), if_neg hg, if_neg (by simp [hm1]), if_neg hg]
      simp only [in_group_loop_ne_zero, List.mem_map, List.mem_range]
      constructor
      · rintro ⟨j, _, h2, h3⟩; exact ⟨j, by omega, h3.symm⟩
      · rintro ⟨j, h2, h3⟩; exact ⟨j, Nat.zero_le _, by omega, h3.symm⟩

theorem group_call_not_request (x : Call) (h : Call.isGroupCall x = true) :
    Call.isUdsConn x = false := by
  cases x <;> simp_all [Call.isGroupCall, Call.isUdsConn]

theorem in_group_trace (c : Consts) (env : Env) (s : State) (uid gid : Int) :
    ∃ t, (in_group c env s uid gid).2.trace = s.trace ++ t ∧
      ∀ x ∈ t, Call.isGroupCall x = true := by
  unfold in_group
  by_cases hm : (env.malloc (env.sysconf_NGROUPS_MAX * c.sizeof_gid_t)).1 = false
  · refine ⟨[.sysconf_NGROUPS_MAX, .malloc (env.sysconf_NGROUPS_MAX * c.sizeof_gid_t)], ?_, ?_⟩
    · simp [hm, State.log, State.sys]
    · simp [Call.isGroupCall]
  · refine ⟨[.sysconf_NGROUPS_MAX, .malloc (env.sysconf_NGROUPS_MAX * c.sizeof_gid_t),
      .getgroups env.sysconf_NGROUPS_MAX, .free], ?_, ?_⟩
    · by_cases hg : (env.getgroups env.sysconf_NGROUPS_MAX).1.ret = -1 <;>
        simp [hm, hg, State.log, State.sys]
    · simp [Call.isGroupCall]

theorem rwx_check (m k : Nat) :
    (((m >>> k) &&& (R_BIT ||| W_BIT ||| X_BIT)) ||| (R_BIT ||| W_BIT)
        ≠ (m >>> k) &&& (R_BIT ||| W_BIT ||| X_BIT)) ↔
      ¬ (has_read (m / 2 ^ k % 8) = true ∧ has_write (m / 2 ^ k % 8) = true) := by
  have h7 : (R_BIT ||| W_BIT ||| X_BIT) = 2 ^ 3 - 1 := by decide
  rw [h7, Nat.and_pow_two_sub_one_eq_mod, Nat.shiftRight_eq_div_pow]
  have hlt : m / 2 ^ k % 2 ^ 3 < 8 := Nat.mod_lt _ (by decide)
  have e8 : m / 2 ^ k % 8 = m / 2 ^ k % 2 ^ 3 := by norm_num
  rw [e8]
  generalize m / 2 ^ k % 2 ^ 3 = p at hlt
  interval_cases p <;> decide

theorem select_perm_bits_check (c : Consts) (env : Env) (s : State) (euid egid : Int)
    (buf : Stat) :
    ((select_perm_bits c env s euid egid buf).1 ||| (R_BIT ||| W_BIT)
        ≠ (select_perm_bits c env s euid egid buf).1) ↔
      check_passes euid egid buf (supplementary_groups c env) = false := by
  unfold select_perm_bits check_passes
  by_cases h0 : euid = 0
  · simp [h0, R_BIT, W_BIT]
  · have hk : ∀ k : Nat,
        (((buf.st_mode >>> k) &&& (R_BIT ||| W_BIT ||| X_BIT)) ||| (R_BIT ||| W_BIT)
          ≠ (buf.st_mode >>> k) &&& (R_BIT ||| W_BIT ||| X_BIT)) ↔
        ¬ (has_read (buf.st_mode / 2 ^ k % 8) = true ∧
            has_write (buf.st_mode / 2 ^ k % 8) = true) := rwx_check buf.st_mode
    have hb : (euid == 0) = false := by simpa using h0
    rw [if_neg h0, hb, Bool.false_or]
    unfold select_shift selected_bits
    by_cases h1 : euid = buf.st_uid
    · rw [if_pos h1, if_pos h1, hk 6]; simp [owner_bits]
    · rw [if_neg h1, if_neg h1]
      by_cases h2 : egid = buf.st_gid
      · rw [if_pos h2, if_pos (Or.inl h2), hk 3]; simp [group_bits]
      · rw [if_neg h2]
        by_cases h3 : (in_group c env s euid buf.st_gid).1 ≠ 0
        · have h4 := (in_group_ne_zero c env s euid buf.st_gid).1 h3
          rw [if_pos h3, if_pos (Or.inr h4), hk 3]; simp [group_bits]
        · have h4 : ¬ (egid = buf.st_gid ∨ buf.st_gid ∈ supplementary_groups c env) := by
            rintro (h | h)
            · exact h2 h
            · exact h3 ((in_group_ne_zero c env s euid buf.st_gid).2 h)
          rw [if_neg h3, if_neg h4, hk 0]; simp [other_bits]

theorem select_perm_bits_trace (c : Consts) (env : Env) (s : State) (euid egid : Int)
    (buf : Stat) :
    ∃ t, (select_perm_bits c env s euid egid buf).2.trace = s.trace ++ t ∧
      ∀ x ∈ t, Call.isGroupCall x = true := by
  unfold select_perm_bits select_shift
  by_cases h0 : euid = 0
  · exact ⟨[], by simp [h0], by simp⟩
  · rw [if_neg h0]
    by_cases h1 : euid = buf.st_uid
    · exact ⟨[], by rw [if_pos h1]; simp, by simp⟩
    · rw [if_neg h1]
      by_cases h2 : egid = buf.st_gid
      · exact ⟨[], by rw [if_pos h2]; simp, by simp⟩
      · rw [if_neg h2]
        obtain ⟨t, ht, hx⟩ := in_group_trace c env s euid buf.st_gid
        refine ⟨t, ?_, hx⟩
        by_cases h3 : (in_group c env s euid buf.st_gid).1 ≠ 0
        · rw [if_pos h3]; exact ht
        · rw [if_neg h3]; exact ht

/-- The state of `_uds_connect` when it reaches the permission step: after
`realpath`, `geteuid`, `getegid` and `stat`. -/
theorem uds_connect_at_check (c : Consts) (env : Env) (s : State) (socket : Int)
    (a : Sockaddr) (address_len : Nat) (real : List Nat) (sr : SysRet) (buf : Stat)
    (hfam : a.sa_family = c.AF_UNIX)
    (hne : a.sun_path.head? ≠ some 0)
    (hnull : null_found a.sun_path = true)
    (hreal : (env.realpath (cstr a.sun_path)).resolved = some real)
    (hlen : strlen real < c.UNIX_PATH_MAX)
    (heuid : env.geteuid ≠ -1)
    (hegid : env.getegid ≠ -1)
    (hstat : env.stat (cstr (strcpy a.sun_path real)) = (sr, buf))
    (hret : sr.ret ≠ -1)
    (hsock : c.S_ISSOCK buf.st_mode = true) :
    ∃ p : Nat × State, ∃ t0 : List Call,
      p.2.trace = s.trace ++ ([.realpath (cstr a.sun_path), .geteuid, .getegid,
        .stat (cstr (strcpy a.sun_path real))] ++ t0) ∧
      (∀ x ∈ t0, Call.isGroupCall x = true) ∧
      (¬ (p.1 ||| (R_BIT ||| W_BIT) = p.1) ↔
        check_passes env.geteuid env.getegid buf (supplementary_groups c env) = false) ∧
      _uds_connect c env s socket (some a) address_len =
        if ¬ (p.1 ||| (R_BIT ||| W_BIT) = p.1) then
          .ret (-1) (p.2.setErrno c.EACCES) (some { a with sun_path := strcpy a.sun_path real })
        else
          .ret (env.ioctl_NWIOSUDSCONN socket { a with sun_path := strcpy a.sun_path real }).ret
            (p.2.sys (.ioctl_NWIOSUDSCONN socket { a with sun_path := strcpy a.sun_path real })
              (env.ioctl_NWIOSUDSCONN socket
                { a with sun_path := strcpy a.sun_path real }).errno)
            (some { a with sun_path := strcpy a.sun_path real }) := by
  obtain ⟨t0, ht0, hx0⟩ := select_perm_bits_trace c env
    ((((s.sys (.realpath (cstr a.sun_path)) (env.realpath (cstr a.sun_path)).errno).log
      .geteuid).log .getegid).sys (.stat (cstr (strcpy a.sun_path real))) sr.errno)
    env.geteuid env.getegid buf
  have hchk := select_perm_bits_check c env
    ((((s.sys (.realpath (cstr a.sun_path)) (env.realpath (cstr a.sun_path)).errno).log
      .geteuid).log .getegid).sys (.stat (cstr (strcpy a.sun_path real))) sr.errno)
    env.geteuid env.getegid buf
  refine ⟨_, t0, ?_, hx0, hchk, ?_⟩
  · rw [ht0]; simp [State.sys, State.log]
  · unfold _uds_connect
    simp only [hne, hnull, hreal, not_le.mpr hlen, heuid, hegid, hstat, hret, hsock,
      ne_eq, not_true_eq_false, if_false, or_self, ge_iff_le, Bool.true_eq_false,
      not_not.mpr hfam]

theorem tcp_connect_trace (c : Consts) (env : Env) (s : State) (socket : Int)
    (address : Option Sockaddr) (address_len : Nat) (tcpconfp : TcpConf) :
    ∃ t, (_tcp_connect c env s socket address address_len tcpconfp).trace = s.trace ++ t ∧
      ∀ x ∈ t, Call.isStreamCall x = true := by
  unfold _tcp_connect
  by_cases h1 : address_len ≠ c.sizeof_sockaddr_in
  · exact ⟨[], by rw [if_pos h1]; simp [Outcome.trace, State.setErrno], by simp⟩
  · rw [if_neg h1]
    cases address with
    | none => exact ⟨[], by simp [Outcome.trace], by simp⟩
    | some sinp =>
      by_cases h2 : sinp.sa_family ≠ c.AF_INET
      · exact ⟨[], by simp [h2, Outcome.trace, State.setErrno], by simp⟩
      · simp only [h2, if_false]
        split_ifs
        · exact ⟨[.ioctl_NWIOSTCPCONF socket (tcpconf_request c tcpconfp sinp)],
            by simp [Outcome.trace, State.sys], by simp [Call.isStreamCall]⟩
        · exact ⟨[.ioctl_NWIOSTCPCONF socket (tcpconf_request c tcpconfp sinp),
            .fcntl_F_GETFL socket],
            by simp [Outcome.trace, State.sys], by simp [Call.isStreamCall]⟩
        · exact ⟨[.ioctl_NWIOSTCPCONF socket (tcpconf_request c tcpconfp sinp),
            .fcntl_F_GETFL socket,
            .ioctl_NWIOTCPCONN socket (tcpcl_request c (env.fcntl_F_GETFL socket).ret)],
            by simp [Outcome.trace, State.sys], by simp [Call.isStreamCall]⟩

theorem uds_connect_returns (c : Consts) (env : Env) (s : State) (socket : Int)
    (address : Option Sockaddr) (address_len : Nat) :
    ∃ r s3 address3, _uds_connect c env s socket address address_len = .ret r s3 address3 := by
  cases address with
  | none => exact ⟨_, _, _, rfl⟩
  | some a =>
    unfold _uds_connect
    dsimp only
    by_cases h1 : a.sa_family ≠ c.AF_UNIX
    · rw [if_pos h1]; exact ⟨_, _, _, rfl⟩
    rw [if_neg h1]
    by_cases h2 : a.sun_path.head? = some 0
    · rw [if_pos h2]; exact ⟨_, _, _, rfl⟩
    rw [if_neg h2]
    by_cases h3 : null_found a.sun_path = false
    · rw [if_pos h3]; exact ⟨_, _, _, rfl⟩
    rw [if_neg h3]
    cases (env.realpath (cstr a.sun_path)).resolved with
    | none => exact ⟨_, _, _, rfl⟩
    | some real =>
      dsimp only
      by_cases h4 : strlen real ≥ c.UNIX_PATH_MAX
      · rw [if_pos h4]; exact ⟨_, _, _, rfl⟩
      rw [if_neg h4]
      by_cases h5 : env.geteuid = -1 ∨ env.getegid = -1
      · rw [if_pos h5]; exact ⟨_, _, _, rfl⟩
      rw [if_neg h5]
      by_cases h6 : (env.stat (cstr (strcpy a.sun_path real))).1.ret = -1
      · rw [if_pos h6]; exact ⟨_, _, _, rfl⟩
      rw [if_neg h6]
      by_cases h7 : c.S_ISSOCK (env.stat (cstr (strcpy a.sun_path real))).2.st_mode = false
      · rw [if_pos h7]; exact ⟨_, _, _, rfl⟩
      rw [if_neg h7]
      split_ifs <;> exact ⟨_, _, _, rfl⟩

theorem null_found_of_no_null (l : List Nat) (h : ∀ b ∈ l, b ≠ 0) : null_found l = false := by
  induction l with
  | nil => rfl
  | cons b bs ih =>
    unfold null_found
    rw [if_neg (h b (List.mem_cons_self b bs))]
    exact ih (fun x hx => h x (List.mem_cons_of_mem b hx))

theorem cstr_append_null (l rest : List Nat) :
    cstr (cstr l ++ 0 :: rest) = cstr l := by
  unfold cstr
  induction l with
  | nil => simp
  | cons b bs ih =>
    by_cases hb : b = 0
    · simp [hb]
    · simp only [List.takeWhile_cons, hb, ne_eq, not_false_eq_true, decide_True, if_true,
        List.cons_append, List.cons.injEq, true_and]
      exact ih

theorem cstr_strcpy (dst src : List Nat) : cstr (strcpy dst src) = cstr src := by
  unfold strcpy
  exact cstr_append_null src _

/-- Every run of `_uds_connect` that gets past the length test of the
canonical name: the address object is overwritten, and the calls after
`realpath`, `geteuid` and `getegid` are `stat` on the canonical name, the calls
of `in_group`, and the request carrying the overwritten address. -/
theorem uds_connect_canon (c : Consts) (env : Env) (s : State) (socket : Int)
    (a : Sockaddr) (address_len : Nat) (real : List Nat)
    (hfam : a.sa_family = c.AF_UNIX)
    (hne : a.sun_path.head? ≠ some 0)
    (hnull : null_found a.sun_path = true)
    (hreal : (env.realpath (cstr a.sun_path)).resolved = some real)
    (hlen : strlen real < c.UNIX_PATH_MAX) :
    ∃ r s1 t,
      _uds_connect c env s socket (some a) address_len
        = .ret r s1 (some { a with sun_path := strcpy a.sun_path real }) ∧
      s1.trace = s.trace ++ ([.realpath (cstr a.sun_path), .geteuid, .getegid] ++ t) ∧
      ∀ x ∈ t, x = .stat (cstr real) ∨
        x = .ioctl_NWIOSUDSCONN socket { a with sun_path := strcpy a.sun_path real } ∨
        Call.isGroupCall x = true := by
  by_cases h5 : env.geteuid = -1 ∨ env.getegid = -1
  · have heq : _uds_connect c env s socket (some a) address_len =
        .ret (-1)
          ((((s.sys (.realpath (cstr a.sun_path)) (env.realpath (cstr a.sun_path)).errno).log
            .geteuid).log .getegid).setErrno c.EACCES)
          (some { a with sun_path := strcpy a.sun_path real }) := by
      unfold _uds_connect
      simp only [hne, hnull, hreal, not_le.mpr hlen, ne_eq, not_true_eq_false, if_false,
        ge_iff_le, Bool.true_eq_false, not_not.mpr hfam, if_pos h5]
    exact ⟨_, _, [], heq, by simp [State.sys, State.log, State.setErrno], by simp⟩
  have heuid : env.geteuid ≠ -1 := fun h => h5 (Or.inl h)
  have hegid : env.getegid ≠ -1 := fun h => h5 (Or.inr h)
  by_cases h6 : (env.stat (cstr (strcpy a.sun_path real))).1.ret = -1
  · have heq : _uds_connect c env s socket (some a) address_len =
        .ret (-1)
          ((((s.sys (.realpath (cstr a.sun_path)) (env.realpath (cstr a.sun_path)).errno).log
            .geteuid).log .getegid).sys (.stat (cstr (strcpy a.sun_path real)))
              (env.stat (cstr (strcpy a.sun_path real))).1.errno)
          (some { a with sun_path := strcpy a.sun_path real }) := by
      unfold _uds_connect
      simp only [hne, hnull, hreal, not_le.mpr hlen, ne_eq, not_true_eq_false, if_false,
        ge_iff_le, Bool.true_eq_false, not_not.mpr hfam, if_neg h5, if_pos h6]
    exact ⟨_, _, [.stat (cstr real)], heq, by simp [State.sys, State.log, cstr_strcpy],
      by simp⟩
  by_cases h7 : c.S_ISSOCK (env.stat (cstr (strcpy a.sun_path real))).2.st_mode = false
  · have heq : _uds_connect c env s socket (some a) address_len =
        .ret (-1)
          (((((s.sys (.realpath (cstr a.sun_path)) (env.realpath (cstr a.sun_path)).errno).log
            .geteuid).log .getegid).sys (.stat (cstr (strcpy a.sun_path real)))
              (env.stat (cstr (strcpy a.sun_path real))).1.errno).setErrno c.EINVAL)
          (some { a with sun_path := strcpy a.sun_path real }) := by
      unfold _uds_connect
      simp only [hne, hnull, hreal, not_le.mpr hlen, ne_eq, not_true_eq_false, if_false,
        ge_iff_le, Bool.true_eq_false, not_not.mpr hfam, if_neg h5, if_neg h6, if_pos h7]
    exact ⟨_, _, [.stat (cstr real)], heq,
      by simp [State.sys, State.log, State.setErrno, cstr_strcpy], by simp⟩
  obtain ⟨p, t0, ht0, hx0, _, heq⟩ := uds_connect_at_check c env s socket a address_len real
    (env.stat (cstr (strcpy a.sun_path real))).1 (env.stat (cstr (strcpy a.sun_path real))).2
    hfam hne hnull hreal hlen heuid hegid rfl h6 (by simpa using h7)
  rw [heq]
  by_cases hp : ¬ (p.1 ||| (R_BIT ||| W_BIT) = p.1)
  · rw [if_pos hp]
    refine ⟨_, _, .stat (cstr real) :: t0, rfl, ?_, ?_⟩
    · simp [State.setErrno, ht0, cstr_strcpy]
    · intro x hx
      rcases List.mem_cons.1 hx with h | h
      · exact Or.inl h
      · exact Or.inr (Or.inr (hx0 x h))
  · rw [if_neg hp]
    refine ⟨_, _, .stat (cstr real) :: (t0 ++
      [.ioctl_NWIOSUDSCONN socket { a with sun_path := strcpy a.sun_path real }]), rfl, ?_, ?_⟩
    · simp [State.sys, ht0, cstr_strcpy]
    · intro x hx
      rcases List.mem_cons.1 hx with h | h
      · exact Or.inl h
      · rcases List.mem_append.1 h with h | h
        · exact Or.inr (Or.inr (hx0 x h))
        · exact Or.inr (Or.inl (List.mem_singleton.1 h))

theorem in_group_loop_zero_or_one (gid : Int) (list : Nat → Int) (n i : Nat) :
    in_group_loop gid list n i = 0 ∨ in_group_loop gid list n i = 1 := by
  induction n generalizing i with
  | zero => exact Or.inl rfl
  | succ n ih =>
    unfold in_group_loop
    by_cases h : gid = list i
    · rw [if_pos h]; exact Or.inr rfl
    · rw [if_neg h]; exact ih (i + 1)

theorem tcp_connect_first_call (c : Consts) (env : Env) (s : State) (socket : Int)
    (a : Sockaddr) (tcpconfp : TcpConf) (hfam : a.sa_family = c.AF_INET) :
    ∃ t, (_tcp_connect c env s socket (some a) c.sizeof_sockaddr_in tcpconfp).trace =
      s.trace ++ (.ioctl_NWIOSTCPCONF socket (tcpconf_request c tcpconfp a) :: t) := by
  unfold _tcp_connect
  simp only [ne_eq, not_true_eq_false, if_false, not_not.mpr hfam]
  split_ifs
  · exact ⟨[], by simp [Outcome.trace, State.sys]⟩
  · exact ⟨[.fcntl_F_GETFL socket], by simp [Outcome.trace, State.sys]⟩
  · exact ⟨[.fcntl_F_GETFL socket,
      .ioctl_NWIOTCPCONN socket (tcpcl_request c (env.fcntl_F_GETFL socket).ret)],
      by simp [Outcome.trace, State.sys]⟩

/-! ## Claims -/

/-- C1. For a local connect that reaches the permission step (family local,
path non-empty and null-terminated, `realpath` succeeds with a name shorter
than `UNIX_PATH_MAX`, effective uid and gid obtained, `stat` succeeds on a
socket file), the connector ends with `-1`, `errno = EACCES` and no
`NWIOSUDSCONN` request exactly when the check of the bucket rule fails
(the superuser always passes; otherwise the owner, group or other triple is
selected and must grant read and write); when the check passes, exactly one
`NWIOSUDSCONN` request is issued and its result is returned. -/
theorem uds_connect_permission_rule (c : Consts) (env : Env) (s : State) (socket : Int)
    (a : Sockaddr) (address_len : Nat) (real : List Nat) (sr : SysRet) (buf : Stat)
    (hfam : a.sa_family = c.AF_UNIX)
    (hne : a.sun_path.head? ≠ some 0)
    (hnull : null_found a.sun_path = true)
    (hreal : (env.realpath (cstr a.sun_path)).resolved = some real)
    (hlen : strlen real < c.UNIX_PATH_MAX)
    (heuid : env.geteuid ≠ -1)
    (hegid : env.getegid ≠ -1)
    (hstat : env.stat (cstr (strcpy a.sun_path real)) = (sr, buf))
    (hret : sr.ret ≠ -1)
    (hsock : c.S_ISSOCK buf.st_mode = true) :
    ∃ r s1 t,
      _uds_connect c env s socket (some a) address_len
        = .ret r s1 (some { a with sun_path := strcpy a.sun_path real }) ∧
      s1.trace = s.trace ++ t ∧
      ((r = -1 ∧ s1.errno = c.EACCES ∧ t.filter Call.isUdsConn = []) ↔
        check_passes env.geteuid env.getegid buf (supplementary_groups c env) = false) ∧
      (check_passes env.geteuid env.getegid buf (supplementary_groups c env) = true →
        t.filter Call.isUdsConn
            = [.ioctl_NWIOSUDSCONN socket { a with sun_path := strcpy a.sun_path real }] ∧
          r = (env.ioctl_NWIOSUDSCONN socket
                { a with sun_path := strcpy a.sun_path real }).ret) := by
  obtain ⟨p, t0, ht0, hx0, hchk, heq⟩ := uds_connect_at_check c env s socket a address_len
    real sr buf hfam hne hnull hreal hlen heuid hegid hstat hret hsock
  have hf0 : t0.filter Call.isUdsConn = [] := by
    rw [List.filter_eq_nil_iff]
    intro x hx
    rw [group_call_not_request x (hx0 x hx)]
    decide
  rw [heq]
  by_cases hc : check_passes env.geteuid env.getegid buf (supplementary_groups c env) = true
  · have hp : ¬ ¬ (p.1 ||| (R_BIT ||| W_BIT) = p.1) := by rw [hchk]; simp [hc]
    rw [if_neg hp]
    refine ⟨_, _, [.realpath (cstr a.sun_path), .geteuid, .getegid,
      .stat (cstr (strcpy a.sun_path real))] ++ t0 ++
        [.ioctl_NWIOSUDSCONN socket { a with sun_path := strcpy a.sun_path real }], rfl,
      ?_, ?_, ?_⟩
    · simp [State.sys, ht0]
    · simp [hc, hf0, List.filter_append, Call.isUdsConn]
    · intro _
      simp [hf0, List.filter_append, Call.isUdsConn]
  · have hc0 : check_passes env.geteuid env.getegid buf (supplementary_groups c env) = false := by
      simpa using hc
    rw [if_pos (hchk.2 hc0)]
    refine ⟨_, _, [.realpath (cstr a.sun_path), .geteuid, .getegid,
      .stat (cstr (strcpy a.sun_path real))] ++ t0, rfl, ?_, ?_, ?_⟩
    · simp [State.setErrno, ht0]
    · simp [hc0, hf0, List.filter_append, Call.isUdsConn, State.setErrno]
    · intro h; exact absurd h hc

/-- C1 at a concrete input: the socket file `/tmp/g.sock` belongs to uid 0
and group 30 with mode `rw` for the group only; the caller (uid 1000, gid 100)
has 30 among its supplementary groups, so the group triple is selected, the
check passes and the request is issued. -/
theorem uds_connect_permission_rule_witness :
    check_passes env0.geteuid env0.getegid ⟨0o140060, 0, 30⟩
        (supplementary_groups consts0 env0) = true ∧
      ∃ r s1 t,
        _uds_connect consts0 env0 state0 5 (some (local_address "/tmp/g.sock")) 129
          = .ret r s1 (some { local_address "/tmp/g.sock" with
              sun_path := strcpy (local_address "/tmp/g.sock").sun_path (bytes "/tmp/g.sock") }) ∧
        s1.trace = state0.trace ++ t ∧
        ((r = -1 ∧ s1.errno = consts0.EACCES ∧ t.filter Call.isUdsConn = []) ↔
          check_passes env0.geteuid env0.getegid ⟨0o140060, 0, 30⟩
            (supplementary_groups consts0 env0) = false) ∧
        (check_passes env0.geteuid env0.getegid ⟨0o140060, 0, 30⟩
            (supplementary_groups consts0 env0) = true →
          t.filter Call.isUdsConn
              = [.ioctl_NWIOSUDSCONN 5 { local_address "/tmp/g.sock" with
                  sun_path :=
                    strcpy (local_address "/tmp/g.sock").sun_path (bytes "/tmp/g.sock") }] ∧
            r = (env0.ioctl_NWIOSUDSCONN 5 { local_address "/tmp/g.sock" with
                  sun_path :=
                    strcpy (local_address "/tmp/g.sock").sun_path (bytes "/tmp/g.sock") }).ret) :=
  ⟨by decide,
    uds_connect_permission_rule consts0 env0 state0 5 (local_address "/tmp/g.sock") 129
      (bytes "/tmp/g.sock") ⟨0, none⟩ ⟨0o140060, 0, 30⟩
      (by decide) (by decide) (by decide) (by decide) (by decide) (by decide) (by decide)
      (by decide) (by decide) (by decide)⟩

/-- C2. For a supplied address whose `address_len` differs from
`sizeof(struct sockaddr_in)`: on a handle classified as stream `connect` returns
`-1` with `errno = EINVAL` after the stream probe alone, and on a handle
classified as datagram after the two probes alone; no `NWIOSTCPCONF`,
`NWIOSUDPOPT`, `fcntl` or `NWIOTCPCONN` call is issued. -/
theorem connect_bad_address_len (c : Consts) (env : Env) (s : State) (socket : Int)
    (a : Sockaddr) (address_len : Nat)
    (hlen : address_len ≠ c.sizeof_sockaddr_in) :
    (is_stream env socket →
      connect c env s socket (some a) address_len =
        .ret (-1)
          { errno := c.EINVAL, trace := s.trace ++ [.ioctl_NWIOGTCPCONF socket] }
          (some a)) ∧
    (is_datagram c env s socket →
      connect c env s socket (some a) address_len =
        .ret (-1)
          { errno := c.EINVAL
            trace := s.trace ++ [.ioctl_NWIOGTCPCONF socket, .ioctl_NWIOGUDPOPT socket] }
          (some a)) := by
  constructor
  · intro hs
    unfold is_stream at hs
    unfold connect
    simp only [hs, ne_eq, not_false_eq_true, true_or, if_true, if_false]
    unfold _tcp_connect
    rw [if_pos hlen]
    simp [State.setErrno, State.sys]
  · rintro ⟨⟨h1, h2⟩, h3⟩
    unfold not_applicable after_stream_probe at h2
    unfold connect
    have hc1 : ¬ ((env.ioctl_NWIOGTCPCONF socket).1.ret ≠ -1 ∨
        ((s.sys (.ioctl_NWIOGTCPCONF socket) (env.ioctl_NWIOGTCPCONF socket).1.errno).errno
            ≠ c.ENOTTY ∧
          (s.sys (.ioctl_NWIOGTCPCONF socket) (env.ioctl_NWIOGTCPCONF socket).1.errno).errno
            ≠ c.EBADIOCTL)) := by
      rintro (h | ⟨ha, hb⟩)
      · exact h h1
      · rcases h2 with h | h
        · exact ha h
        · exact hb h
    simp only [if_neg hc1, h3, ne_eq, not_false_eq_true, true_or, if_true, if_false]
    unfold _udp_connect
    simp [hlen, State.setErrno, State.sys]

/-- C2 at concrete inputs: the address 10.0.0.1 port 80 with length 8 on the
stream descriptor 3 and on the datagram descriptor 4. -/
theorem connect_bad_address_len_witness :
    (is_stream env0 3 ∧ is_datagram consts0 env0 state0 4) ∧
    connect consts0 env0 state0 3 (some inet_address) 8 =
      .ret (-1) { errno := 22, trace := [.ioctl_NWIOGTCPCONF 3] } (some inet_address) ∧
    connect consts0 env0 state0 4 (some inet_address) 8 =
      .ret (-1) { errno := 22, trace := [.ioctl_NWIOGTCPCONF 4, .ioctl_NWIOGUDPOPT 4] }
        (some inet_address) :=
  ⟨⟨by decide, by decide⟩,
    (connect_bad_address_len consts0 env0 state0 3 inet_address 8 (by decide)).1 (by decide),
    (connect_bad_address_len consts0 env0 state0 4 inet_address 8 (by decide)).2 (by decide)⟩

/-- C3. When the stream probe does not fail with `ENOTTY` or `EBADIOCTL`:
if it failed, `connect` returns `-1` right after it, with the `errno` the probe
left; if it succeeded, `connect` returns exactly what `_tcp_connect` returns;
and in both cases every call issued belongs to the stream path, so neither the
datagram probe nor a call of `_udp_connect` or `_uds_connect` occurs. -/
theorem connect_stream_probe_decides (c : Consts) (env : Env) (s : State) (socket : Int)
    (address : Option Sockaddr) (address_len : Nat)
    (h : ¬ stream_not_applicable c env s socket) :
    ((env.ioctl_NWIOGTCPCONF socket).1.ret = -1 →
      connect c env s socket address address_len =
        .ret (-1)
          { errno := (env.ioctl_NWIOGTCPCONF socket).1.errno.getD s.errno
            trace := s.trace ++ [.ioctl_NWIOGTCPCONF socket] }
          address) ∧
    ((env.ioctl_NWIOGTCPCONF socket).1.ret ≠ -1 →
      connect c env s socket address address_len =
        _tcp_connect c env (after_stream_probe env s socket) socket address address_len
          (env.ioctl_NWIOGTCPCONF socket).2) ∧
    ∃ t, (connect c env s socket address address_len).trace = s.trace ++ t ∧
      ∀ x ∈ t, Call.isStreamCall x = true := by
  unfold stream_not_applicable not_applicable after_stream_probe at h
  have hc1 : (env.ioctl_NWIOGTCPCONF socket).1.ret ≠ -1 ∨
      ((s.sys (.ioctl_NWIOGTCPCONF socket) (env.ioctl_NWIOGTCPCONF socket).1.errno).errno
          ≠ c.ENOTTY ∧
        (s.sys (.ioctl_NWIOGTCPCONF socket) (env.ioctl_NWIOGTCPCONF socket).1.errno).errno
          ≠ c.EBADIOCTL) := by
    by_cases hr : (env.ioctl_NWIOGTCPCONF socket).1.ret = -1
    · right
      constructor
      · intro he; exact h ⟨hr, Or.inl he⟩
      · intro he; exact h ⟨hr, Or.inr he⟩
    · exact Or.inl hr
  have hfail : (env.ioctl_NWIOGTCPCONF socket).1.ret = -1 →
      connect c env s socket address address_len =
        .ret (-1)
          { errno := (env.ioctl_NWIOGTCPCONF socket).1.errno.getD s.errno
            trace := s.trace ++ [.ioctl_NWIOGTCPCONF socket] }
          address := by
    intro hr
    unfold connect
    dsimp only
    rw [if_pos hc1, if_pos hr]
    rfl
  have hok : (env.ioctl_NWIOGTCPCONF socket).1.ret ≠ -1 →
      connect c env s socket address address_len =
        _tcp_connect c env (after_stream_probe env s socket) socket address address_len
          (env.ioctl_NWIOGTCPCONF socket).2 := by
    intro hr
    unfold connect
    dsimp only
    rw [if_pos hc1, if_neg hr]
    rfl
  refine ⟨hfail, hok, ?_⟩
  by_cases hr : (env.ioctl_NWIOGTCPCONF socket).1.ret = -1
  · rw [hfail hr]
    exact ⟨[.ioctl_NWIOGTCPCONF socket], rfl, by simp [Call.isStreamCall]⟩
  · rw [hok hr]
    obtain ⟨t, ht, hx⟩ := tcp_connect_trace c env (after_stream_probe env s socket) socket
      address address_len (env.ioctl_NWIOGTCPCONF socket).2
    refine ⟨.ioctl_NWIOGTCPCONF socket :: t, ?_, ?_⟩
    · rw [ht]; simp [after_stream_probe, State.sys]
    · intro x hx1
      rcases List.mem_cons.1 hx1 with h1 | h1
      · rw [h1]; rfl
      · exact hx x h1

/-- C3 at concrete inputs: descriptor 6 is not open, so the stream probe fails
with `EBADF` and `connect` stops there; descriptor 3 answers the stream probe
and `connect` runs the stream connector only. -/
theorem connect_stream_probe_decides_witness :
    (¬ stream_not_applicable consts0 env0 state0 6 ∧
      ¬ stream_not_applicable consts0 env0 state0 3) ∧
    connect consts0 env0 state0 6 (some inet_address) 16 =
      .ret (-1) { errno := 9, trace := [.ioctl_NWIOGTCPCONF 6] } (some inet_address) ∧
    connect consts0 env0 state0 3 (some inet_address) 16 =
      _tcp_connect consts0 env0 (after_stream_probe env0 state0 3) 3 (some inet_address) 16
        (env0.ioctl_NWIOGTCPCONF 3).2 :=
  ⟨⟨by decide, by decide⟩,
    (connect_stream_probe_decides consts0 env0 state0 6 (some inet_address) 16
      (by decide)).1 (by decide),
    (connect_stream_probe_decides consts0 env0 state0 3 (some inet_address) 16
      (by decide)).2.1 (by decide)⟩

/-- C4 (defect in the code). The test at line 117 compares the result of
`fcntl(socket, F_GETFL)` with `1`, not with `-1`.  On descriptor 8 the
configuration succeeds and the query succeeds with the flag value `1`:
`_tcp_connect` returns `-1` and issues no `NWIOTCPCONN`.  On descriptor 7 the
configuration succeeds and the query fails with `-1` and `EBADF`:
`_tcp_connect` goes on, issues `NWIOTCPCONN` (with `TCF_ASYNCH`, since
`-1 & O_NONBLOCK` is not zero) and returns its result `0`. -/
theorem tcp_connect_getfl_check_misses :
    ((env0.ioctl_NWIOSTCPCONF 8 (tcpconf_request consts0 ⟨0x10, 0, 0⟩ inet_address)).ret ≠ -1 ∧
      (env0.fcntl_F_GETFL 8).ret ≠ -1 ∧
      _tcp_connect consts0 env0 state0 8 (some inet_address) 16 ⟨0x10, 0, 0⟩ =
        .ret (-1)
          { errno := 0
            trace := [.ioctl_NWIOSTCPCONF 8 ⟨0x330, 0x0A000001, 80⟩, .fcntl_F_GETFL 8] }
          (some inet_address)) ∧
    ((env0.ioctl_NWIOSTCPCONF 7 (tcpconf_request consts0 ⟨0x10, 0, 0⟩ inet_address)).ret ≠ -1 ∧
      env0.fcntl_F_GETFL 7 = ⟨-1, some EBADF0⟩ ∧
      _tcp_connect consts0 env0 state0 7 (some inet_address) 16 ⟨0x10, 0, 0⟩ =
        .ret 0
          { errno := 9
            trace := [.ioctl_NWIOSTCPCONF 7 ⟨0x330, 0x0A000001, 80⟩, .fcntl_F_GETFL 7,
              .ioctl_NWIOTCPCONN 7 ⟨1⟩] }
          (some inet_address)) := by
  decide

/-- C5 (defect in the code). On descriptors 10 and 9 the configuration fails
with `EISCONN`.  On 10 the query `fcntl(socket, F_GETFL)` returns the flag
value `1`: `_tcp_connect` returns `-1` without issuing `NWIOTCPCONN`, so it
does not continue as after a successful configuration to the
connection-initiate request.  On 9 the query fails with `EBADF`:
`_tcp_connect` issues `NWIOTCPCONN` all the same and returns its result `0`,
so the failure of the query is a second lower-layer failure that is not
surfaced.  Both come from the test at line 117, which compares with `1`. -/
theorem tcp_connect_second_swallowed_failure :
    (env0.ioctl_NWIOSTCPCONF 10 (tcpconf_request consts0 ⟨0x10, 0, 0⟩ inet_address)
        = ⟨-1, some consts0.EISCONN⟩ ∧
      env0.fcntl_F_GETFL 10 = ⟨1, none⟩ ∧
      _tcp_connect consts0 env0 state0 10 (some inet_address) 16 ⟨0x10, 0, 0⟩ =
        .ret (-1)
          { errno := 57
            trace := [.ioctl_NWIOSTCPCONF 10 ⟨0x330, 0x0A000001, 80⟩, .fcntl_F_GETFL 10] }
          (some inet_address)) ∧
    (env0.ioctl_NWIOSTCPCONF 9 (tcpconf_request consts0 ⟨0x10, 0, 0⟩ inet_address)
        = ⟨-1, some consts0.EISCONN⟩ ∧
      env0.fcntl_F_GETFL 9 = ⟨-1, some EBADF0⟩ ∧
      _tcp_connect consts0 env0 state0 9 (some inet_address) 16 ⟨0x10, 0, 0⟩ =
        .ret 0
          { errno := 9
            trace := [.ioctl_NWIOSTCPCONF 9 ⟨0x330, 0x0A000001, 80⟩, .fcntl_F_GETFL 9,
              .ioctl_NWIOTCPCONN 9 ⟨1⟩] }
          (some inet_address)) := by
  decide

/-- C6 (defect in the code). Descriptor 8 is stream-capable, the address is
10.0.0.1 port 80 with the correct length, `NWIOSTCPCONF` succeeds and the
query `fcntl(socket, F_GETFL)` succeeds with the flag value `1`: `connect`
returns `-1` and issues no `NWIOTCPCONN` at all, although the request would
have succeeded. -/
theorem connect_no_initiate_when_flags_are_one :
    is_stream env0 8 ∧
    (env0.ioctl_NWIOSTCPCONF 8 (tcpconf_request consts0 ⟨0x10, 0, 0⟩ inet_address)).ret ≠ -1 ∧
    (env0.fcntl_F_GETFL 8).ret ≠ -1 ∧
    (env0.ioctl_NWIOTCPCONN 8 (tcpcl_request consts0 1)).ret = 0 ∧
    connect consts0 env0 state0 8 (some inet_address) 16 =
      .ret (-1)
        { errno := 0
          trace := [.ioctl_NWIOGTCPCONF 8, .ioctl_NWIOSTCPCONF 8 ⟨0x330, 0x0A000001, 80⟩,
            .fcntl_F_GETFL 8] }
        (some inet_address) := by
  decide

/-- C7. When the stream probe and the datagram probe both fail with `ENOTTY`
or `EBADIOCTL`, `connect` runs `_uds_connect`, which always returns; if that
returns `-1` with `errno` equal to `ENOTTY`, `EBADIOCTL` or `EAFNOSUPPORT`,
`connect` returns `-1` with `errno = ENOSYS`; if it returns `-1` with another
`errno`, `connect` returns `-1` and leaves that `errno`; if it returns a value
other than `-1`, `connect` returns that value. -/
theorem connect_local_fallthrough (c : Consts) (env : Env) (s : State) (socket : Int)
    (address : Option Sockaddr) (address_len : Nat)
    (h1 : stream_not_applicable c env s socket)
    (h2 : datagram_not_applicable c env s socket) :
    (∃ r s3 address3,
      _uds_connect c env (after_datagram_probe env s socket) socket address address_len
        = .ret r s3 address3) ∧
    ∀ r s3 address3,
      _uds_connect c env (after_datagram_probe env s socket) socket address address_len
        = .ret r s3 address3 →
      ((r = -1 ∧ (s3.errno = c.ENOTTY ∨ s3.errno = c.EBADIOCTL ∨ s3.errno = c.EAFNOSUPPORT) →
          connect c env s socket address address_len
            = .ret (-1) { errno := c.ENOSYS, trace := s3.trace } address3) ∧
        (r = -1 ∧ ¬ (s3.errno = c.ENOTTY ∨ s3.errno = c.EBADIOCTL ∨ s3.errno = c.EAFNOSUPPORT) →
          connect c env s socket address address_len = .ret (-1) s3 address3) ∧
        (r ≠ -1 → connect c env s socket address address_len = .ret r s3 address3)) := by
  refine ⟨uds_connect_returns c env _ socket address address_len, ?_⟩
  intro r s3 address3 hu
  obtain ⟨h1r, h1e⟩ := h1
  obtain ⟨h2r, h2e⟩ := h2
  unfold not_applicable after_stream_probe at h1e
  unfold not_applicable after_datagram_probe after_stream_probe at h2e
  unfold after_datagram_probe after_stream_probe at hu
  have hc1 : ¬ ((env.ioctl_NWIOGTCPCONF socket).1.ret ≠ -1 ∨
      ((s.sys (.ioctl_NWIOGTCPCONF socket) (env.ioctl_NWIOGTCPCONF socket).1.errno).errno
          ≠ c.ENOTTY ∧
        (s.sys (.ioctl_NWIOGTCPCONF socket) (env.ioctl_NWIOGTCPCONF socket).1.errno).errno
          ≠ c.EBADIOCTL)) := by
    rintro (h | ⟨ha, hb⟩)
    · exact h h1r
    · rcases h1e with h | h
      · exact ha h
      · exact hb h
  have hc2 : ¬ ((env.ioctl_NWIOGUDPOPT socket).1.ret ≠ -1 ∨
      (((s.sys (.ioctl_NWIOGTCPCONF socket) (env.ioctl_NWIOGTCPCONF socket).1.errno).sys
          (.ioctl_NWIOGUDPOPT socket) (env.ioctl_NWIOGUDPOPT socket).1.errno).errno
          ≠ c.ENOTTY ∧
        ((s.sys (.ioctl_NWIOGTCPCONF socket) (env.ioctl_NWIOGTCPCONF socket).1.errno).sys
          (.ioctl_NWIOGUDPOPT socket) (env.ioctl_NWIOGUDPOPT socket).1.errno).errno
          ≠ c.EBADIOCTL)) := by
    rintro (h | ⟨ha, hb⟩)
    · exact h h2r
    · rcases h2e with h | h
      · exact ha h
      · exact hb h
  have hconn : connect c env s socket address address_len =
      if r ≠ -1 ∨
          (s3.errno ≠ c.ENOTTY ∧ s3.errno ≠ c.EBADIOCTL ∧ s3.errno ≠ c.EAFNOSUPPORT) then
        if r = -1 then .ret (-1) s3 address3 else .ret r s3 address3
      else .ret (-1) (s3.setErrno c.ENOSYS) address3 := by
    unfold connect
    dsimp only
    rw [if_neg hc1, if_neg hc2, hu]
  rw [hconn]
  refine ⟨?_, ?_, ?_⟩
  · rintro ⟨hr, he⟩
    have hn : ¬ (r ≠ -1 ∨
        (s3.errno ≠ c.ENOTTY ∧ s3.errno ≠ c.EBADIOCTL ∧ s3.errno ≠ c.EAFNOSUPPORT)) := by
      rintro (h | ⟨ha, hb, hc⟩)
      · exact h hr
      · rcases he with h | h | h
        · exact ha h
        · exact hb h
        · exact hc h
    rw [if_neg hn]; rfl
  · rintro ⟨hr, he⟩
    have hp : r ≠ -1 ∨
        (s3.errno ≠ c.ENOTTY ∧ s3.errno ≠ c.EBADIOCTL ∧ s3.errno ≠ c.EAFNOSUPPORT) := by
      right
      exact ⟨fun h => he (Or.inl h), fun h => he (Or.inr (Or.inl h)),
        fun h => he (Or.inr (Or.inr h))⟩
    rw [if_pos hp, if_pos hr]
  · intro hr
    rw [if_pos (Or.inl hr), if_neg hr]

/-- C7 at concrete inputs on the local descriptor 5: an Internet address makes
`_uds_connect` fail with `EAFNOSUPPORT`, which `connect` turns into `ENOSYS`;
the address `/tmp/p.sock` (mode `rw-rw----`, foreign owner and group) makes it
fail with `EACCES`, which `connect` leaves; the address `/tmp/s.sock` connects
and `connect` returns `0`. -/
theorem connect_local_fallthrough_witness :
    (stream_not_applicable consts0 env0 state0 5 ∧
      datagram_not_applicable consts0 env0 state0 5) ∧
    connect consts0 env0 state0 5 (some inet_address) 16 =
      .ret (-1)
        { errno := 38, trace := [.ioctl_NWIOGTCPCONF 5, .ioctl_NWIOGUDPOPT 5] }
        (some inet_address) ∧
    connect consts0 env0 state0 5 (some (local_address "/tmp/p.sock")) 129 =
      .ret (-1)
        { errno := 13
          trace := [.ioctl_NWIOGTCPCONF 5, .ioctl_NWIOGUDPOPT 5,
            .realpath (bytes "/tmp/p.sock"), .geteuid, .getegid, .stat (bytes "/tmp/p.sock"),
            .sysconf_NGROUPS_MAX, .malloc 8, .getgroups 8, .free] }
        (some (local_address "/tmp/p.sock")) ∧
    connect consts0 env0 state0 5 (some (local_address "/tmp/g.sock")) 129 =
      .ret 0
        { errno := 25
          trace := [.ioctl_NWIOGTCPCONF 5, .ioctl_NWIOGUDPOPT 5,
            .realpath (bytes "/tmp/g.sock"), .geteuid, .getegid, .stat (bytes "/tmp/g.sock"),
            .sysconf_NGROUPS_MAX, .malloc 8, .getgroups 8, .free,
            .ioctl_NWIOSUDSCONN 5 (local_address "/tmp/g.sock")] }
        (some (local_address "/tmp/g.sock")) :=
  ⟨⟨by decide, by decide⟩,
    ((connect_local_fallthrough consts0 env0 state0 5 (some inet_address) 16
      (by decide) (by decide)).2 (-1)
      { errno := 67, trace := [.ioctl_NWIOGTCPCONF 5, .ioctl_NWIOGUDPOPT 5] }
      (some inet_address) (by decide)).1 ⟨rfl, by decide⟩,
    ((connect_local_fallthrough consts0 env0 state0 5 (some (local_address "/tmp/p.sock")) 129
      (by decide) (by decide)).2 (-1) _ _ (by decide)).2.1 ⟨rfl, by decide⟩,
    ((connect_local_fallthrough consts0 env0 state0 5 (some (local_address "/tmp/g.sock")) 129
      (by decide) (by decide)).2 0 _ _ (by decide)).2.2 (by decide)⟩

/-- C8. For a present address of family `AF_UNIX` whose array `sun_path`
holds no null character, `_uds_connect` returns `-1` with `errno = EINVAL`,
leaves the address as it was and issues no call at all: the trace is the one it
started with. -/
theorem uds_connect_unterminated_path (c : Consts) (env : Env) (s : State) (socket : Int)
    (a : Sockaddr) (address_len : Nat)
    (hfam : a.sa_family = c.AF_UNIX)
    (hnz : ∀ b ∈ a.sun_path, b ≠ 0) :
    _uds_connect c env s socket (some a) address_len =
      .ret (-1) { errno := c.EINVAL, trace := s.trace } (some a) := by
  have hnull := null_found_of_no_null a.sun_path hnz
  have hhead : a.sun_path.head? ≠ some 0 := by
    intro h
    cases hp : a.sun_path with
    | nil => rw [hp] at h; simp at h
    | cons b bs =>
      rw [hp] at h
      simp only [List.head?_cons, Option.some.injEq] at h
      exact hnz b (by rw [hp]; exact List.mem_cons_self b bs) h
  unfold _uds_connect
  simp only [hhead, hnull, ne_eq, not_true_eq_false, if_false, if_true, not_not.mpr hfam]
  rfl

/-- C8 at a concrete input: a local address whose 127 path characters are all
`a`. -/
theorem uds_connect_unterminated_path_witness :
    _uds_connect consts0 env0 state0 5
        (some { sa_family := 1, sin_port := 0, sin_addr := 0,
                sun_path := List.replicate 127 97 }) 129 =
      .ret (-1) { errno := 22, trace := [] }
        (some { sa_family := 1, sin_port := 0, sin_addr := 0,
                sun_path := List.replicate 127 97 }) :=
  uds_connect_unterminated_path consts0 env0 state0 5
    { sa_family := 1, sin_port := 0, sin_addr := 0, sun_path := List.replicate 127 97 } 129
    (by decide) (by decide)

/-- C9. For a local address that passes validation and whose `realpath`
succeeds: if the canonical name has length at least `UNIX_PATH_MAX`,
`_uds_connect` returns `-1` with `errno = ENAMETOOLONG` and `realpath` is the
only call issued (no `stat`, no request); if the length is below
`UNIX_PATH_MAX`, the run goes on to `geteuid` and `getegid`, so it does not end
in that failure. -/
theorem uds_connect_name_too_long (c : Consts) (env : Env) (s : State) (socket : Int)
    (a : Sockaddr) (address_len : Nat) (real : List Nat)
    (hfam : a.sa_family = c.AF_UNIX)
    (hne : a.sun_path.head? ≠ some 0)
    (hnull : null_found a.sun_path = true)
    (hreal : (env.realpath (cstr a.sun_path)).resolved = some real) :
    (strlen real ≥ c.UNIX_PATH_MAX →
      _uds_connect c env s socket (some a) address_len =
        .ret (-1)
          { errno := c.ENAMETOOLONG, trace := s.trace ++ [.realpath (cstr a.sun_path)] }
          (some a)) ∧
    (strlen real < c.UNIX_PATH_MAX →
      (∃ r s1 t,
        _uds_connect c env s socket (some a) address_len
          = .ret r s1 (some { a with sun_path := strcpy a.sun_path real }) ∧
        s1.trace = s.trace ++ ([.realpath (cstr a.sun_path), .geteuid, .getegid] ++ t)) ∧
      _uds_connect c env s socket (some a) address_len ≠
        .ret (-1)
          { errno := c.ENAMETOOLONG, trace := s.trace ++ [.realpath (cstr a.sun_path)] }
          (some a)) := by
  constructor
  · intro hlen
    unfold _uds_connect
    simp only [hne, hnull, hreal, ne_eq, not_true_eq_false, if_false, Bool.true_eq_false,
      not_not.mpr hfam, if_pos hlen]
    rfl
  · intro hlen
    obtain ⟨r, s1, t, heq, htr, _⟩ := uds_connect_canon c env s socket a address_len real
      hfam hne hnull hreal hlen
    refine ⟨⟨r, s1, t, heq, htr⟩, ?_⟩
    rw [heq]
    intro h
    injection h with _ hs _
    have hl := congrArg List.length (hs ▸ htr)
    simp at hl

/-- C9 at concrete inputs: `/tmp/long` resolves to a name of 127 characters,
which is `UNIX_PATH_MAX`, and `/tmp/s.sock` resolves to `/var/run/s.sock`. -/
theorem uds_connect_name_too_long_witness :
    _uds_connect consts0 env0 state0 5 (some (local_address "/tmp/long")) 129 =
      .ret (-1) { errno := 36, trace := [.realpath (bytes "/tmp/long")] }
        (some (local_address "/tmp/long")) ∧
    _uds_connect consts0 env0 state0 5 (some (local_address "/tmp/s.sock")) 129 ≠
      .ret (-1) { errno := 36, trace := [.realpath (bytes "/tmp/s.sock")] }
        (some (local_address "/tmp/s.sock")) :=
  ⟨(uds_connect_name_too_long consts0 env0 state0 5 (local_address "/tmp/long") 129
      (List.replicate 127 97) (by decide) (by decide) (by decide) (by decide)).1 (by decide),
    ((uds_connect_name_too_long consts0 env0 state0 5 (local_address "/tmp/s.sock") 129
      (bytes "/var/run/s.sock") (by decide) (by decide) (by decide) (by decide)).2
        (by decide)).2⟩

/-- C10. For a local address that passes validation and canonicalization
(`realpath` succeeds with a name shorter than `UNIX_PATH_MAX`): the caller's
`sun_path` is overwritten and then holds the canonical name; every `stat` call
and every `NWIOSUDSCONN` request issued carries the canonical name (the request
carries the overwritten address, on the caller's descriptor); and when all
later checks pass, `stat` and the request are both issued and `_uds_connect`
returns the value of the request and the `errno` it stored. -/
theorem uds_connect_uses_canonical_path (c : Consts) (env : Env) (s : State) (socket : Int)
    (a : Sockaddr) (address_len : Nat) (real : List Nat)
    (hfam : a.sa_family = c.AF_UNIX)
    (hne : a.sun_path.head? ≠ some 0)
    (hnull : null_found a.sun_path = true)
    (hreal : (env.realpath (cstr a.sun_path)).resolved = some real)
    (hlen : strlen real < c.UNIX_PATH_MAX) :
    ∃ r s1 t,
      _uds_connect c env s socket (some a) address_len
        = .ret r s1 (some { a with sun_path := strcpy a.sun_path real }) ∧
      cstr (strcpy a.sun_path real) = cstr real ∧
      s1.trace = s.trace ++ (.realpath (cstr a.sun_path) :: t) ∧
      (∀ path, Call.stat path ∈ t → path = cstr real) ∧
      (∀ fd a2, Call.ioctl_NWIOSUDSCONN fd a2 ∈ t →
        fd = socket ∧ a2 = { a with sun_path := strcpy a.sun_path real } ∧
          cstr a2.sun_path = cstr real) ∧
      (∀ sr buf, env.stat (cstr real) = (sr, buf) →
        env.geteuid ≠ -1 → env.getegid ≠ -1 → sr.ret ≠ -1 → c.S_ISSOCK buf.st_mode = true →
        check_passes env.geteuid env.getegid buf (supplementary_groups c env) = true →
        Call.stat (cstr real) ∈ t ∧
        Call.ioctl_NWIOSUDSCONN socket { a with sun_path := strcpy a.sun_path real } ∈ t ∧
        r = (env.ioctl_NWIOSUDSCONN socket
              { a with sun_path := strcpy a.sun_path real }).ret ∧
        ∀ e, (env.ioctl_NWIOSUDSCONN socket
              { a with sun_path := strcpy a.sun_path real }).errno = some e → s1.errno = e) := by
  obtain ⟨r, s1, t, heq, htr, hall⟩ := uds_connect_canon c env s socket a address_len real
    hfam hne hnull hreal hlen
  refine ⟨r, s1, .geteuid :: .getegid :: t, heq, cstr_strcpy _ _, by simpa using htr, ?_, ?_, ?_⟩
  · intro path hmem
    simp only [List.mem_cons, reduceCtorEq, false_or] at hmem
    rcases hall _ hmem with h | h | h
    · injection h
    · cases h
    · simp [Call.isGroupCall] at h
  · intro fd a2 hmem
    simp only [List.mem_cons, reduceCtorEq, false_or] at hmem
    rcases hall _ hmem with h | h | h
    · cases h
    · injection h with h1 h2
      exact ⟨h1, h2, by rw [h2]; exact cstr_strcpy _ _⟩
    · simp [Call.isGroupCall] at h
  · intro sr buf hstat heuid hegid hret hsock hpass
    rw [← cstr_strcpy a.sun_path real] at hstat
    obtain ⟨p, t0, ht0, _, hchk, heq2⟩ := uds_connect_at_check c env s socket a address_len
      real sr buf hfam hne hnull hreal hlen heuid hegid hstat hret hsock
    have hp : ¬ ¬ (p.1 ||| (R_BIT ||| W_BIT) = p.1) := by rw [hchk]; simp [hpass]
    rw [if_neg hp, heq] at heq2
    injection heq2 with hr hs _
    have htr2 : s.trace ++ ([.realpath (cstr a.sun_path), .geteuid, .getegid] ++ t) =
        s.trace ++ ([.realpath (cstr a.sun_path), .geteuid, .getegid,
          .stat (cstr (strcpy a.sun_path real))] ++ t0 ++
          [.ioctl_NWIOSUDSCONN socket { a with sun_path := strcpy a.sun_path real }]) := by
      rw [← htr, hs]
      simp [State.sys, ht0]
    have ht : t = .stat (cstr real) :: (t0 ++
        [.ioctl_NWIOSUDSCONN socket { a with sun_path := strcpy a.sun_path real }]) := by
      have h := List.append_cancel_left htr2
      simpa [cstr_strcpy] using h
    refine ⟨?_, ?_, hr, ?_⟩
    · rw [ht]; simp
    · rw [ht]; simp
    · intro e he
      rw [hs]
      simp [State.sys, he]

/-- C10 at the concrete input of the scenario: `/tmp/s.sock` resolves to
`/var/run/s.sock`, a socket file of uid 0 and gid 0 with mode `rw-rw-rw-`; the
caller has uid 1000, gid 100 and groups 20 and 30, so the triple of the others
is selected and the check passes.  `stat` and the request carry
`/var/run/s.sock`, the caller's address holds it afterwards and the result `0`
of the request is returned. -/
theorem uds_connect_uses_canonical_path_witness :
    (selected_bits env0.geteuid env0.getegid ⟨0o140666, 0, 0⟩ (supplementary_groups consts0 env0)
        = other_bits 0o140666 ∧
      check_passes env0.geteuid env0.getegid ⟨0o140666, 0, 0⟩
        (supplementary_groups consts0 env0) = true) ∧
    _uds_connect consts0 env0 state0 5 (some (local_address "/tmp/s.sock")) 129 =
      .ret 0
        { errno := 0
          trace := [.realpath (bytes "/tmp/s.sock"), .geteuid, .getegid,
            .stat (bytes "/var/run/s.sock"),
            .sysconf_NGROUPS_MAX, .malloc 8, .getgroups 8, .free,
            .ioctl_NWIOSUDSCONN 5 (local_address "/var/run/s.sock")] }
        (some (local_address "/var/run/s.sock")) ∧
    ∃ r s1 t,
      _uds_connect consts0 env0 state0 5 (some (local_address "/tmp/s.sock")) 129
        = .ret r s1 (some (local_address "/var/run/s.sock")) ∧
      s1.trace = .realpath (bytes "/tmp/s.sock") :: t ∧
      (∀ path, Call.stat path ∈ t → path = bytes "/var/run/s.sock") ∧
      (∀ fd a2, Call.ioctl_NWIOSUDSCONN fd a2 ∈ t →
        fd = 5 ∧ a2 = local_address "/var/run/s.sock") := by
  refine ⟨⟨by decide, by decide⟩, by decide, ?_⟩
  obtain ⟨r, s1, t, h1, _, h3, h4, h5, _⟩ :=
    uds_connect_uses_canonical_path consts0 env0 state0 5 (local_address "/tmp/s.sock") 129
      (bytes "/var/run/s.sock") (by decide) (by decide) (by decide) (by decide) (by decide)
  have ha : ({ local_address "/tmp/s.sock" with
      sun_path := strcpy (local_address "/tmp/s.sock").sun_path (bytes "/var/run/s.sock") }
      : Sockaddr) = local_address "/var/run/s.sock" := by decide
  have hc : cstr (bytes "/var/run/s.sock") = bytes "/var/run/s.sock" := by decide
  have hp : cstr (local_address "/tmp/s.sock").sun_path = bytes "/tmp/s.sock" := by decide
  rw [ha] at h1 h5
  rw [hc] at h4
  rw [hp] at h3
  exact ⟨r, s1, t, h1, by simpa [state0] using h3, h4, fun fd a2 h => ⟨(h5 fd a2 h).1, (h5 fd a2 h).2.1⟩⟩

/-- C11. With a `NULL` address `_udp_connect` issues one `NWIOSUDPOPT` call
whose request is `udpopt_unset`, the flags `NWUO_RP_ANY | NWUO_RA_ANY |
NWUO_RWDATALL` and nothing else assigned, whatever the system, the state, the
probed configuration and `address_len` are, and it returns the value of that
call.  A second such call right after the first issues the same request again,
and in every configuration layer whose configuration after a request depends on
the request alone, the two requests leave the configuration that one leaves. -/
theorem udp_connect_disassociate (c : Consts) (env1 env2 : Env) (s : State) (socket : Int)
    (len1 len2 : Nat) (probed1 probed2 : UdpOpt)
    (Config : Type) (apply : Config → UdpOpt → Config)
    (hfun : ∀ k1 k2 req, apply k1 req = apply k2 req) (cfg : Config) :
    _udp_connect c env1 s socket none len1 probed1 =
      .ret (env1.ioctl_NWIOSUDPOPT socket (udpopt_unset c)).ret
        { errno := (env1.ioctl_NWIOSUDPOPT socket (udpopt_unset c)).errno.getD s.errno
          trace := s.trace ++ [.ioctl_NWIOSUDPOPT socket (udpopt_unset c)] }
        none ∧
    (_udp_connect c env2
        { errno := (env1.ioctl_NWIOSUDPOPT socket (udpopt_unset c)).errno.getD s.errno
          trace := s.trace ++ [.ioctl_NWIOSUDPOPT socket (udpopt_unset c)] }
        socket none len2 probed2).trace =
      s.trace ++ [.ioctl_NWIOSUDPOPT socket (udpopt_unset c),
        .ioctl_NWIOSUDPOPT socket (udpopt_unset c)] ∧
    apply_requests apply cfg
        (udp_requests [.ioctl_NWIOSUDPOPT socket (udpopt_unset c),
          .ioctl_NWIOSUDPOPT socket (udpopt_unset c)]) =
      apply_requests apply cfg (udp_requests [.ioctl_NWIOSUDPOPT socket (udpopt_unset c)]) := by
  refine ⟨rfl, ?_, ?_⟩
  · simp [_udp_connect, Outcome.trace, State.sys]
  · simp only [udp_requests, apply_requests, List.foldl]
    exact hfun _ _ _

/-- C11 at a concrete input: the datagram descriptor 4, two calls with
different `address_len`, and the layer that keeps the last request as its
configuration. -/
theorem udp_connect_disassociate_witness :
    _udp_connect consts0 env0 state0 4 none 0 ⟨0xC, none, none⟩ =
      .ret 0
        { errno := 0
          trace := [.ioctl_NWIOSUDPOPT 4 ⟨0x13000000, none, none⟩] }
        none ∧
    (_udp_connect consts0 env0
        { errno := 0, trace := [.ioctl_NWIOSUDPOPT 4 ⟨0x13000000, none, none⟩] }
        4 none 16 ⟨0x13000000, none, none⟩).trace =
      [.ioctl_NWIOSUDPOPT 4 ⟨0x13000000, none, none⟩,
        .ioctl_NWIOSUDPOPT 4 ⟨0x13000000, none, none⟩] ∧
    apply_requests (fun _ req => req) (⟨0xC, none, none⟩ : UdpOpt)
        (udp_requests [.ioctl_NWIOSUDPOPT 4 (udpopt_unset consts0),
          .ioctl_NWIOSUDPOPT 4 (udpopt_unset consts0)]) =
      apply_requests (fun _ req => req) (⟨0xC, none, none⟩ : UdpOpt)
        (udp_requests [.ioctl_NWIOSUDPOPT 4 (udpopt_unset consts0)]) :=
  udp_connect_disassociate consts0 env0 env0 state0 4 0 16 ⟨0xC, none, none⟩
    ⟨0x13000000, none, none⟩ UdpOpt (fun _ req => req) (fun _ _ _ => rfl) ⟨0xC, none, none⟩

/-- C12. For a supplied address whose family is not `AF_INET`, whatever
`address_len` is: on a handle classified as stream `connect` returns `-1` with
`errno = EINVAL` after the stream probe alone, and on a handle classified as
datagram after the two probes alone; no `NWIOSTCPCONF`, `NWIOSUDPOPT` or
`NWIOTCPCONN` call is issued. -/
theorem connect_bad_family (c : Consts) (env : Env) (s : State) (socket : Int)
    (a : Sockaddr) (address_len : Nat)
    (hfam : a.sa_family ≠ c.AF_INET) :
    (is_stream env socket →
      connect c env s socket (some a) address_len =
        .ret (-1)
          { errno := c.EINVAL, trace := s.trace ++ [.ioctl_NWIOGTCPCONF socket] }
          (some a)) ∧
    (is_datagram c env s socket →
      connect c env s socket (some a) address_len =
        .ret (-1)
          { errno := c.EINVAL
            trace := s.trace ++ [.ioctl_NWIOGTCPCONF socket, .ioctl_NWIOGUDPOPT socket] }
          (some a)) := by
  constructor
  · intro hs
    unfold is_stream at hs
    unfold connect
    simp only [hs, ne_eq, not_false_eq_true, true_or, if_true, if_false]
    unfold _tcp_connect
    by_cases hlen : address_len ≠ c.sizeof_sockaddr_in
    · rw [if_pos hlen]
      simp [State.setErrno, State.sys]
    · rw [if_neg hlen]
      simp [hfam, State.setErrno, State.sys]
  · rintro ⟨⟨h1, h2⟩, h3⟩
    unfold not_applicable after_stream_probe at h2
    unfold connect
    have hc1 : ¬ ((env.ioctl_NWIOGTCPCONF socket).1.ret ≠ -1 ∨
        ((s.sys (.ioctl_NWIOGTCPCONF socket) (env.ioctl_NWIOGTCPCONF socket).1.errno).errno
            ≠ c.ENOTTY ∧
          (s.sys (.ioctl_NWIOGTCPCONF socket) (env.ioctl_NWIOGTCPCONF socket).1.errno).errno
            ≠ c.EBADIOCTL)) := by
      rintro (h | ⟨ha, hb⟩)
      · exact h h1
      · rcases h2 with h | h
        · exact ha h
        · exact hb h
    simp only [if_neg hc1, h3, ne_eq, not_false_eq_true, true_or, if_true, if_false]
    unfold _udp_connect
    by_cases hlen : address_len ≠ c.sizeof_sockaddr_in
    · simp [hlen, State.setErrno, State.sys]
    · simp [hlen, hfam, State.setErrno, State.sys]

/-- C12 at concrete inputs: the local address `/tmp/s.sock` (family `AF_UNIX`)
with the length of an Internet address on the stream descriptor 3, and with
another length on the datagram descriptor 4. -/
theorem connect_bad_family_witness :
    (is_stream env0 3 ∧ is_datagram consts0 env0 state0 4) ∧
    connect consts0 env0 state0 3 (some (local_address "/tmp/s.sock")) 16 =
      .ret (-1) { errno := 22, trace := [.ioctl_NWIOGTCPCONF 3] }
        (some (local_address "/tmp/s.sock")) ∧
    connect consts0 env0 state0 4 (some (local_address "/tmp/s.sock")) 129 =
      .ret (-1) { errno := 22, trace := [.ioctl_NWIOGTCPCONF 4, .ioctl_NWIOGUDPOPT 4] }
        (some (local_address "/tmp/s.sock")) :=
  ⟨⟨by decide, by decide⟩,
    (connect_bad_family consts0 env0 state0 3 (local_address "/tmp/s.sock") 16
      (by decide)).1 (by decide),
    (connect_bad_family consts0 env0 state0 4 (local_address "/tmp/s.sock") 129
      (by decide)).2 (by decide)⟩

/-- C13. `in_group` returns `0` when `malloc` returns `NULL` and when
`getgroups` returns `-1`; when the buffer is allocated and `getgroups` returns
a count `r` other than `-1`, it returns `1` if `gid` equals one of the entries
`list[0]` to `list[r-1]` of the buffer and `0` otherwise.  It never returns
another value, so no error is passed on. -/
theorem in_group_result (c : Consts) (env : Env) (s : State) (uid gid : Int) :
    ((env.malloc (env.sysconf_NGROUPS_MAX * c.sizeof_gid_t)).1 = false →
      (in_group c env s uid gid).1 = 0) ∧
    ((env.malloc (env.sysconf_NGROUPS_MAX * c.sizeof_gid_t)).1 = true →
      (env.getgroups env.sysconf_NGROUPS_MAX).1.ret = -1 →
      (in_group c env s uid gid).1 = 0) ∧
    ((env.malloc (env.sysconf_NGROUPS_MAX * c.sizeof_gid_t)).1 = true →
      (env.getgroups env.sysconf_NGROUPS_MAX).1.ret ≠ -1 →
      ((in_group c env s uid gid).1 = 1 ↔
        ∃ j : Nat, (j : Int) < (env.getgroups env.sysconf_NGROUPS_MAX).1.ret ∧
          gid = (env.getgroups env.sysconf_NGROUPS_MAX).2 j)) ∧
    ((in_group c env s uid gid).1 = 0 ∨ (in_group c env s uid gid).1 = 1) := by
  have hval : (in_group c env s uid gid).1 = 0 ∨ (in_group c env s uid gid).1 = 1 := by
    unfold in_group
    dsimp only
    split_ifs
    · exact Or.inl rfl
    · exact Or.inl rfl
    · exact in_group_loop_zero_or_one _ _ _ _
  refine ⟨?_, ?_, ?_, hval⟩
  · intro hm
    unfold in_group
    dsimp only
    rw [if_pos hm]
  · intro hm hg
    unfold in_group
    dsimp only
    rw [if_neg (by simp [hm]), if_pos hg]
  · intro hm hg
    have h1 : (in_group c env s uid gid).1 = 1 ↔ (in_group c env s uid gid).1 ≠ 0 := by
      rcases hval with h | h <;> simp [h]
    have h2 : (in_group c env s uid gid).1 ≠ 0 ↔
        in_group_loop gid (env.getgroups env.sysconf_NGROUPS_MAX).2
          (env.getgroups env.sysconf_NGROUPS_MAX).1.ret.toNat 0 ≠ 0 := by
      unfold in_group
      dsimp only
      rw [if_neg (by simp [hm]), if_neg hg]
    rw [h1, h2, in_group_loop_ne_zero]
    constructor
    · rintro ⟨j, _, hj, he⟩
      exact ⟨j, by omega, he⟩
    · rintro ⟨j, hj, he⟩
      exact ⟨j, Nat.zero_le _, by omega, he⟩

/-- C13 at a concrete input: in `env0` the buffer is allocated and `getgroups`
reports the two groups 20 and 30, so `in_group` returns `1` for gid 30 and `0`
for gid 5. -/
theorem in_group_result_witness :
    (in_group consts0 env0 state0 1000 30).1 = 1 ∧
    (in_group consts0 env0 state0 1000 5).1 = 0 ∧
    ((in_group consts0 env0 state0 1000 30).1 = 1 ↔
      ∃ j : Nat, (j : Int) < (env0.getgroups env0.sysconf_NGROUPS_MAX).1.ret ∧
        30 = (env0.getgroups env0.sysconf_NGROUPS_MAX).2 j) :=
  ⟨by decide, by decide,
    (in_group_result consts0 env0 state0 1000 30).2.2.1 (by decide) (by decide)⟩

/-- C14, as stated, fails. In `env_no_euid` the effective uid cannot be
obtained and `/tmp/missing` does not exist, so `stat` on it fails with
`ENOENT`.  `_uds_connect` never calls `stat`: it returns `-1` with
`errno = EACCES` right after `geteuid` and `getegid`.  The result is not the
failure of `stat`, and `EACCES` for an unobtainable id is reported for a target
that does not exist. -/
theorem uds_connect_credentials_before_stat :
    env_no_euid.geteuid = -1 ∧
    (env_no_euid.stat (bytes "/tmp/missing")).1 = ⟨-1, some ENOENT0⟩ ∧
    _uds_connect consts0 env_no_euid state0 5 (some (local_address "/tmp/missing")) 129 =
      .ret (-1)
        { errno := consts0.EACCES
          trace := [.realpath (bytes "/tmp/missing"), .geteuid, .getegid] }
        (some (local_address "/tmp/missing")) ∧
    consts0.EACCES ≠ ENOENT0 := by
  decide

/-- C14, amended. After validation and canonicalization the checks of
`_uds_connect` come in the order credentials, `stat`, socket file.  If
`geteuid` or `getegid` returns `-1` the result is `-1` with `errno = EACCES`
and `stat` is not called, whatever the target is.  When both ids are obtained:
if `stat` on the canonical name fails, the result is `-1` with the `errno`
left by `stat`; if `stat` succeeds and the target is not a socket file, the
result is `-1` with `errno = EINVAL`. -/
theorem uds_connect_check_order (c : Consts) (env : Env) (s : State) (socket : Int)
    (a : Sockaddr) (address_len : Nat) (real : List Nat)
    (hfam : a.sa_family = c.AF_UNIX)
    (hne : a.sun_path.head? ≠ some 0)
    (hnull : null_found a.sun_path = true)
    (hreal : (env.realpath (cstr a.sun_path)).resolved = some real)
    (hlen : strlen real < c.UNIX_PATH_MAX) :
    (env.geteuid = -1 ∨ env.getegid = -1 →
      _uds_connect c env s socket (some a) address_len =
        .ret (-1)
          { errno := c.EACCES
            trace := s.trace ++ [.realpath (cstr a.sun_path), .geteuid, .getegid] }
          (some { a with sun_path := strcpy a.sun_path real })) ∧
    (env.geteuid ≠ -1 → env.getegid ≠ -1 →
      ((env.stat (cstr real)).1.ret = -1 →
        _uds_connect c env s socket (some a) address_len =
          .ret (-1)
            { errno := (env.stat (cstr real)).1.errno.getD
                ((env.realpath (cstr a.sun_path)).errno.getD s.errno)
              trace := s.trace ++ [.realpath (cstr a.sun_path), .geteuid, .getegid,
                .stat (cstr real)] }
            (some { a with sun_path := strcpy a.sun_path real })) ∧
      ((env.stat (cstr real)).1.ret ≠ -1 →
        c.S_ISSOCK (env.stat (cstr real)).2.st_mode = false →
        _uds_connect c env s socket (some a) address_len =
          .ret (-1)
            { errno := c.EINVAL
              trace := s.trace ++ [.realpath (cstr a.sun_path), .geteuid, .getegid,
                .stat (cstr real)] }
            (some { a with sun_path := strcpy a.sun_path real }))) := by
  have hcs : cstr (strcpy a.sun_path real) = cstr real := cstr_strcpy _ _
  refine ⟨?_, ?_⟩
  · intro h5
    unfold _uds_connect
    simp only [hne, hnull, hreal, not_le.mpr hlen, ne_eq, not_true_eq_false, if_false,
      ge_iff_le, Bool.true_eq_false, not_not.mpr hfam, if_pos h5]
    simp [State.sys, State.log, State.setErrno]
  · intro heuid hegid
    have h5 : ¬ (env.geteuid = -1 ∨ env.getegid = -1) := by
      rintro (h | h)
      · exact heuid h
      · exact hegid h
    refine ⟨?_, ?_⟩
    · intro h6
      unfold _uds_connect
      simp only [hne, hnull, hreal, not_le.mpr hlen, ne_eq, not_true_eq_false, if_false,
        ge_iff_le, Bool.true_eq_false, not_not.mpr hfam, if_neg h5, hcs, if_pos h6]
      simp [State.sys, State.log]
    · intro h6 h7
      unfold _uds_connect
      simp only [hne, hnull, hreal, not_le.mpr hlen, ne_eq, not_true_eq_false, if_false,
        ge_iff_le, Bool.true_eq_false, not_not.mpr hfam, if_neg h5, hcs, if_neg h6, if_pos h7]
      simp [State.sys, State.log, State.setErrno]

/-- C14 amended, at concrete inputs: the socket file `/tmp/g.sock` for a caller
without effective uid; the missing file `/tmp/missing` for the caller of
`env0`; the regular file `/etc/passwd`. -/
theorem uds_connect_check_order_witness :
    _uds_connect consts0 env_no_euid state0 5 (some (local_address "/tmp/g.sock")) 129 =
      .ret (-1)
        { errno := 13, trace := [.realpath (bytes "/tmp/g.sock"), .geteuid, .getegid] }
        (some (local_address "/tmp/g.sock")) ∧
    _uds_connect consts0 env0 state0 5 (some (local_address "/tmp/missing")) 129 =
      .ret (-1)
        { errno := 2
          trace := [.realpath (bytes "/tmp/missing"), .geteuid, .getegid,
            .stat (bytes "/tmp/missing")] }
        (some (local_address "/tmp/missing")) ∧
    _uds_connect consts0 env_regular_file state0 5 (some (local_address "/etc/passwd")) 129 =
      .ret (-1)
        { errno := 22
          trace := [.realpath (bytes "/etc/passwd"), .geteuid, .getegid,
            .stat (bytes "/etc/passwd")] }
        (some (local_address "/etc/passwd")) :=
  ⟨(uds_connect_check_order consts0 env_no_euid state0 5 (local_address "/tmp/g.sock") 129
      (bytes "/tmp/g.sock") (by decide) (by decide) (by decide) (by decide) (by decide)).1
      (by decide),
    ((uds_connect_check_order consts0 env0 state0 5 (local_address "/tmp/missing") 129
      (bytes "/tmp/missing") (by decide) (by decide) (by decide) (by decide) (by decide)).2
      (by decide) (by decide)).1 (by decide),
    ((uds_connect_check_order consts0 env_regular_file state0 5 (local_address "/etc/passwd") 129
      (bytes "/etc/passwd") (by decide) (by decide) (by decide) (by decide) (by decide)).2
      (by decide) (by decide)).2 (by decide) (by decide)⟩

/-- C15. For an address of family `AF_INET` with the length of
`struct sockaddr_in`, and header constants in which `LP_SEL` is not already part
of the other request flags.  On a stream handle the first call after the probe
is `NWIOSTCPCONF` with remote address `sin_addr`, remote port `sin_port` and
flags `NWTC_SET_RA | NWTC_SET_RP`, to which `NWTC_LP_SEL` is added exactly when
the probed configuration has its local-port field equal to `NWTC_LP_UNSET`.
On a datagram handle the only call after the probes is `NWIOSUDPOPT` with
remote address `sin_addr`, remote port `sin_port` and flags `NWUO_RP_SET |
NWUO_RA_SET | NWUO_RWDATONLY`, to which `NWUO_LP_SEL` is added exactly when the
probed options have their local-port field equal to `NWUO_LP_ANY`; `connect`
returns the value of that call. -/
theorem connect_config_request (c : Consts) (env : Env) (s : State) (socket : Int)
    (a : Sockaddr)
    (hfam : a.sa_family = c.AF_INET)
    (htsel : (c.NWTC_SET_RA ||| c.NWTC_SET_RP) ||| c.NWTC_LP_SEL
      ≠ c.NWTC_SET_RA ||| c.NWTC_SET_RP)
    (husel : ((c.NWUO_RP_SET ||| c.NWUO_RA_SET) ||| c.NWUO_RWDATONLY) ||| c.NWUO_LP_SEL
      ≠ (c.NWUO_RP_SET ||| c.NWUO_RA_SET) ||| c.NWUO_RWDATONLY) :
    (is_stream env socket →
      (∃ t, (connect c env s socket (some a) c.sizeof_sockaddr_in).trace =
        s.trace ++ (.ioctl_NWIOGTCPCONF socket ::
          .ioctl_NWIOSTCPCONF socket (tcpconf_request c (env.ioctl_NWIOGTCPCONF socket).2 a)
            :: t)) ∧
      (tcpconf_request c (env.ioctl_NWIOGTCPCONF socket).2 a).nwtc_remaddr = a.sin_addr ∧
      (tcpconf_request c (env.ioctl_NWIOGTCPCONF socket).2 a).nwtc_remport = a.sin_port ∧
      ((tcpconf_request c (env.ioctl_NWIOGTCPCONF socket).2 a).nwtc_flags
          = c.NWTC_SET_RA ||| c.NWTC_SET_RP ∨
        (tcpconf_request c (env.ioctl_NWIOGTCPCONF socket).2 a).nwtc_flags
          = (c.NWTC_SET_RA ||| c.NWTC_SET_RP) ||| c.NWTC_LP_SEL) ∧
      ((tcpconf_request c (env.ioctl_NWIOGTCPCONF socket).2 a).nwtc_flags
          = (c.NWTC_SET_RA ||| c.NWTC_SET_RP) ||| c.NWTC_LP_SEL ↔
        (env.ioctl_NWIOGTCPCONF socket).2.nwtc_flags &&& c.NWTC_LOCPORT_MASK
          = c.NWTC_LP_UNSET)) ∧
    (is_datagram c env s socket →
      connect c env s socket (some a) c.sizeof_sockaddr_in =
        .ret
          (env.ioctl_NWIOSUDPOPT socket
            (udpopt_request c (env.ioctl_NWIOGUDPOPT socket).2 a)).ret
          { errno :=
              (env.ioctl_NWIOSUDPOPT socket
                (udpopt_request c (env.ioctl_NWIOGUDPOPT socket).2 a)).errno.getD
                (after_datagram_probe env s socket).errno
            trace := s.trace ++ [.ioctl_NWIOGTCPCONF socket, .ioctl_NWIOGUDPOPT socket,
              .ioctl_NWIOSUDPOPT socket
                (udpopt_request c (env.ioctl_NWIOGUDPOPT socket).2 a)] }
          (some a) ∧
      (udpopt_request c (env.ioctl_NWIOGUDPOPT socket).2 a).nwuo_remaddr = some a.sin_addr ∧
      (udpopt_request c (env.ioctl_NWIOGUDPOPT socket).2 a).nwuo_remport = some a.sin_port ∧
      ((udpopt_request c (env.ioctl_NWIOGUDPOPT socket).2 a).nwuo_flags
          = (c.NWUO_RP_SET ||| c.NWUO_RA_SET) ||| c.NWUO_RWDATONLY ∨
        (udpopt_request c (env.ioctl_NWIOGUDPOPT socket).2 a).nwuo_flags
          = ((c.NWUO_RP_SET ||| c.NWUO_RA_SET) ||| c.NWUO_RWDATONLY) ||| c.NWUO_LP_SEL) ∧
      ((udpopt_request c (env.ioctl_NWIOGUDPOPT socket).2 a).nwuo_flags
          = ((c.NWUO_RP_SET ||| c.NWUO_RA_SET) ||| c.NWUO_RWDATONLY) ||| c.NWUO_LP_SEL ↔
        (env.ioctl_NWIOGUDPOPT socket).2.nwuo_flags &&& c.NWUO_LOCPORT_MASK
          = c.NWUO_LP_ANY)) := by
  constructor
  · intro hs
    refine ⟨?_, rfl, rfl, ?_, ?_⟩
    · obtain ⟨t, ht⟩ := tcp_connect_first_call c env (after_stream_probe env s socket) socket a
        (env.ioctl_NWIOGTCPCONF socket).2 hfam
      refine ⟨t, ?_⟩
      have hconn : connect c env s socket (some a) c.sizeof_sockaddr_in =
          _tcp_connect c env (after_stream_probe env s socket) socket (some a)
            c.sizeof_sockaddr_in (env.ioctl_NWIOGTCPCONF socket).2 := by
        unfold is_stream at hs
        unfold connect
        dsimp only
        rw [if_pos (Or.inl hs), if_neg hs]
        rfl
      rw [hconn, ht]
      simp [after_stream_probe, State.sys]
    · unfold tcpconf_request
      dsimp only
      split_ifs
      · exact Or.inr rfl
      · exact Or.inl rfl
    · unfold tcpconf_request
      dsimp only
      split_ifs with h
      · exact ⟨fun _ => h, fun _ => rfl⟩
      · exact ⟨fun e => absurd e.symm htsel, fun e => absurd e h⟩
  · rintro ⟨⟨h1, h2⟩, h3⟩
    refine ⟨?_, rfl, rfl, ?_, ?_⟩
    · unfold not_applicable after_stream_probe at h2
      have hc1 : ¬ ((env.ioctl_NWIOGTCPCONF socket).1.ret ≠ -1 ∨
          ((s.sys (.ioctl_NWIOGTCPCONF socket) (env.ioctl_NWIOGTCPCONF socket).1.errno).errno
              ≠ c.ENOTTY ∧
            (s.sys (.ioctl_NWIOGTCPCONF socket) (env.ioctl_NWIOGTCPCONF socket).1.errno).errno
              ≠ c.EBADIOCTL)) := by
        rintro (h | ⟨ha, hb⟩)
        · exact h h1
        · rcases h2 with h | h
          · exact ha h
          · exact hb h
      unfold connect
      dsimp only
      rw [if_neg hc1, if_pos (Or.inl h3), if_neg h3]
      unfold _udp_connect
      simp [hfam, State.sys, after_datagram_probe, after_stream_probe]
    · unfold udpopt_request
      dsimp only
      split_ifs
      · exact Or.inr rfl
      · exact Or.inl rfl
    · unfold udpopt_request
      dsimp only
      split_ifs with h
      · exact ⟨fun _ => h, fun _ => rfl⟩
      · exact ⟨fun e => absurd e.symm husel, fun e => absurd e h⟩

/-- C15 at concrete inputs: the address 10.0.0.1 port 80 on the stream
descriptor 3 and on the datagram descriptor 4, both probed with no local port
set, so both requests ask for the selection of a local port. -/
theorem connect_config_request_witness :
    (is_stream env0 3 ∧ is_datagram consts0 env0 state0 4) ∧
    (∃ t, (connect consts0 env0 state0 3 (some inet_address) 16).trace =
      .ioctl_NWIOGTCPCONF 3 :: .ioctl_NWIOSTCPCONF 3 ⟨0x330, 0x0A000001, 80⟩ :: t) ∧
    connect consts0 env0 state0 4 (some inet_address) 16 =
      .ret 0
        { errno := 25
          trace := [.ioctl_NWIOGTCPCONF 4, .ioctl_NWIOGUDPOPT 4,
            .ioctl_NWIOSUDPOPT 4 ⟨0x1304, some 0x0A000001, some 80⟩] }
        (some inet_address) :=
  ⟨⟨by decide, by decide⟩,
    ((connect_config_request consts0 env0 state0 3 inet_address (by decide) (by decide)
      (by decide)).1 (by decide)).1,
    ((connect_config_request consts0 env0 state0 4 inet_address (by decide) (by decide)
      (by decide)).2 (by decide)).1⟩

/-- C16. `_uds_connect` leaves the caller's address as it was on every early
failure: `EFAULT` for a `NULL` address, `EAFNOSUPPORT` for a family other than
`AF_UNIX`, `EINVAL` for an empty or unterminated path, a failure of `realpath`,
and `ENAMETOOLONG`.  Whenever the address after the call differs from the one
before, `realpath` has returned a name shorter than `UNIX_PATH_MAX` and the
address is the old one with that name copied into `sun_path`. -/
theorem uds_connect_address_frame (c : Consts) (env : Env) (s : State) (socket : Int)
    (a : Sockaddr) (address_len : Nat) :
    _uds_connect c env s socket none address_len =
      .ret (-1) { errno := c.EFAULT, trace := s.trace } none ∧
    (a.sa_family ≠ c.AF_UNIX →
      _uds_connect c env s socket (some a) address_len =
        .ret (-1) { errno := c.EAFNOSUPPORT, trace := s.trace } (some a)) ∧
    (a.sa_family = c.AF_UNIX → a.sun_path.head? = some 0 ∨ null_found a.sun_path = false →
      _uds_connect c env s socket (some a) address_len =
        .ret (-1) { errno := c.EINVAL, trace := s.trace } (some a)) ∧
    (a.sa_family = c.AF_UNIX → a.sun_path.head? ≠ some 0 → null_found a.sun_path = true →
      (env.realpath (cstr a.sun_path)).resolved = none →
      _uds_connect c env s socket (some a) address_len =
        .ret (-1)
          { errno := (env.realpath (cstr a.sun_path)).errno.getD s.errno
            trace := s.trace ++ [.realpath (cstr a.sun_path)] }
          (some a)) ∧
    (a.sa_family = c.AF_UNIX → a.sun_path.head? ≠ some 0 → null_found a.sun_path = true →
      ∀ real, (env.realpath (cstr a.sun_path)).resolved = some real →
      strlen real ≥ c.UNIX_PATH_MAX →
      _uds_connect c env s socket (some a) address_len =
        .ret (-1)
          { errno := c.ENAMETOOLONG, trace := s.trace ++ [.realpath (cstr a.sun_path)] }
          (some a)) ∧
    (∀ r s1 address1,
      _uds_connect c env s socket (some a) address_len = .ret r s1 address1 →
      address1 ≠ some a →
      ∃ real, (env.realpath (cstr a.sun_path)).resolved = some real ∧
        strlen real < c.UNIX_PATH_MAX ∧
        address1 = some { a with sun_path := strcpy a.sun_path real }) := by
  have e1 : a.sa_family ≠ c.AF_UNIX →
      _uds_connect c env s socket (some a) address_len =
        .ret (-1) { errno := c.EAFNOSUPPORT, trace := s.trace } (some a) := by
    intro h
    unfold _uds_connect
    dsimp only
    rw [if_pos h]
    rfl
  have e2 : a.sa_family = c.AF_UNIX →
      a.sun_path.head? = some 0 ∨ null_found a.sun_path = false →
      _uds_connect c env s socket (some a) address_len =
        .ret (-1) { errno := c.EINVAL, trace := s.trace } (some a) := by
    intro hfam h
    unfold _uds_connect
    dsimp only
    rw [if_neg (not_not.mpr hfam)]
    by_cases hh : a.sun_path.head? = some 0
    · rw [if_pos hh]; rfl
    · rw [if_neg hh]
      rcases h with h | h
      · exact absurd h hh
      · rw [if_pos h]; rfl
  have e3 : a.sa_family = c.AF_UNIX → a.sun_path.head? ≠ some 0 →
      null_found a.sun_path = true →
      (env.realpath (cstr a.sun_path)).resolved = none →
      _uds_connect c env s socket (some a) address_len =
        .ret (-1)
          { errno := (env.realpath (cstr a.sun_path)).errno.getD s.errno
            trace := s.trace ++ [.realpath (cstr a.sun_path)] }
          (some a) := by
    intro hfam hne hnull hreal
    unfold _uds_connect
    simp only [hne, hnull, hreal, ne_eq, not_true_eq_false, if_false, Bool.true_eq_false,
      not_not.mpr hfam]
    rfl
  have e4 : a.sa_family = c.AF_UNIX → a.sun_path.head? ≠ some 0 →
      null_found a.sun_path = true →
      ∀ real, (env.realpath (cstr a.sun_path)).resolved = some real →
      strlen real ≥ c.UNIX_PATH_MAX →
      _uds_connect c env s socket (some a) address_len =
        .ret (-1)
          { errno := c.ENAMETOOLONG, trace := s.trace ++ [.realpath (cstr a.sun_path)] }
          (some a) := by
    intro hfam hne hnull real hreal hlen
    unfold _uds_connect
    simp only [hne, hnull, hreal, ne_eq, not_true_eq_false, if_false, Bool.true_eq_false,
      not_not.mpr hfam, if_pos hlen]
    rfl
  refine ⟨rfl, e1, e2, e3, e4, ?_⟩
  intro r s1 address1 hout hdiff
  have same : ∀ r0 s0, _uds_connect c env s socket (some a) address_len = .ret r0 s0 (some a) →
      False := by
    intro r0 s0 h
    rw [h] at hout
    injection hout with _ _ h3
    exact hdiff h3.symm
  by_cases hfam : a.sa_family = c.AF_UNIX
  · by_cases hne : a.sun_path.head? = some 0
    · exact (same _ _ (e2 hfam (Or.inl hne))).elim
    · by_cases hnull : null_found a.sun_path = false
      · exact (same _ _ (e2 hfam (Or.inr hnull))).elim
      · have hnull1 : null_found a.sun_path = true := by simpa using hnull
        cases hreal : (env.realpath (cstr a.sun_path)).resolved with
        | none => exact (same _ _ (e3 hfam hne hnull1 hreal)).elim
        | some real =>
          by_cases hlen : strlen real ≥ c.UNIX_PATH_MAX
          · exact (same _ _ (e4 hfam hne hnull1 real hreal hlen)).elim
          · obtain ⟨r2, s2, t, heq, _, _⟩ := uds_connect_canon c env s socket a address_len
              real hfam hne hnull1 hreal (not_le.mp hlen)
            rw [heq] at hout
            injection hout with _ _ h3
            exact ⟨real, rfl, not_le.mp hlen, h3.symm⟩
  · exact (same _ _ (e1 hfam)).elim

/-- C16 at concrete inputs: an Internet address handed to the local connector,
an empty path, and the address `/tmp/s.sock`, whose path is replaced by
`/var/run/s.sock`. -/
theorem uds_connect_address_frame_witness :
    _uds_connect consts0 env0 state0 5 (some inet_address) 16 =
      .ret (-1) { errno := 67, trace := [] } (some inet_address) ∧
    _uds_connect consts0 env0 state0 5 (some (local_address "")) 129 =
      .ret (-1) { errno := 22, trace := [] } (some (local_address "")) ∧
    ∃ real, (env0.realpath (cstr (local_address "/tmp/s.sock").sun_path)).resolved = some real ∧
      strlen real < consts0.UNIX_PATH_MAX ∧
      some (local_address "/var/run/s.sock") =
        some { local_address "/tmp/s.sock" with
          sun_path := strcpy (local_address "/tmp/s.sock").sun_path real } :=
  ⟨(uds_connect_address_frame consts0 env0 state0 5 inet_address 16).2.1 (by decide),
    (uds_connect_address_frame consts0 env0 state0 5 (local_address "") 129).2.2.1
      (by decide) (by decide),
    (uds_connect_address_frame consts0 env0 state0 5 (local_address "/tmp/s.sock") 129).2.2.2.2.2
      0
      { errno := 0
        trace := [.realpath (bytes "/tmp/s.sock"), .geteuid, .getegid,
          .stat (bytes "/var/run/s.sock"),
          .sysconf_NGROUPS_MAX, .malloc 8, .getgroups 8, .free,
          .ioctl_NWIOSUDSCONN 5 (local_address "/var/run/s.sock")] }
      (some (local_address "/var/run/s.sock")) (by decide) (by decide)⟩

end Connect
